import Mathlib

/-!
# The JSON RPC server of the DEX client (`client/rpcserver/rpcserver.go`)

A shallow embedding of `rpcserver.go`: the credential check (`authMiddleware`),
the HTTPS request pipeline (`handleJSON`, `parseHTTPRequest`, `handleRequest`,
`writeJSON`), the router the handlers are mounted on, the constructor `New`
with the TLS identity provisioning (`fileExists`, `genCertPair`) and the
goroutines started by `Connect`.

Effects are made explicit.  A handler is a function on the response writer and
on a `World` (the client core behind the `clientCore` interface, the file
system, the clock and the package logger).  What `rpcserver.go` imports and
what cannot be computed from its text (hash, base64 and JSON codecs, the
`msgjson` constants, the `routes` table of `handlers.go`, the WebSocket
handler, the certificate generator, and whether a file write or removal fails)
is a field of `Deps`.
-/

set_option autoImplicit false

namespace rpcserver

/-! ## Bytes and `crypto/subtle` -/

/-- A Go `byte`. -/
abbrev Byte := Fin 256

/-- Embeds `subtle.ConstantTimeByteEq(x, y uint8) int`, which is
`int((uint32(x^y) - 1) >> 31)`; the subtraction wraps at 32 bits. -/
def ConstantTimeByteEq (x y : Nat) : Nat :=
  ((((x ^^^ y) % 2 ^ 8) + 2 ^ 32 - 1) % 2 ^ 32) >>> 31

/-- The loop of `subtle.ConstantTimeCompare`: `v |= x[i] ^ y[i]` over the
common indices, `v` being a `byte`. -/
def xorAcc : Nat → List Byte → List Byte → Nat
  | v, a :: x, b :: y => xorAcc ((v ||| (a.val ^^^ b.val)) % 2 ^ 8) x y
  | v, _, _ => v

/-- Embeds `subtle.ConstantTimeCompare(x, y []byte) int`: 0 when the lengths differ,
otherwise `ConstantTimeByteEq(v, 0)` for the accumulated difference `v`. -/
def ConstantTimeCompare (x y : List Byte) : Nat :=
  if x.length ≠ y.length then 0 else ConstantTimeByteEq (xorAcc 0 x y) 0

/-! ## `net/http`: headers, response writer, request -/

/-- Embeds `textproto.validHeaderFieldByte`: the token characters of RFC 7230. -/
def validHeaderFieldByte (c : Char) : Bool :=
  c.isAlphanum || "!#$%&*+-.^_|~".toList.contains c || c == '\x27' || c == '\x60'

/-- The case mapping of `textproto.canonicalMIMEHeaderKey`: upper case at the
start and after a hyphen, lower case elsewhere. -/
def canonicalChars : Bool → List Char → List Char
  | _, [] => []
  | upper, c :: cs =>
    (if upper && c.isLower then c.toUpper
     else if !upper && c.isUpper then c.toLower else c) :: canonicalChars (c == '-') cs

/-- Embeds `textproto.CanonicalMIMEHeaderKey`: a key holding a byte that is not a
token character is returned unchanged. -/
def CanonicalMIMEHeaderKey (s : String) : String :=
  if s.toList.all validHeaderFieldByte then String.mk (canonicalChars true s.toList) else s

/-- Embeds `http.Header`, a `map[string][]string`, as an association list. -/
abbrev Header := List (String × List String)

/-- The map index `h[key]`: `nil` for an absent key. -/
def Header.index (h : Header) (key : String) : List String :=
  (List.lookup key h).getD []

/-- The assignment `m[key] = v` on a map kept as an association list. -/
def assign {β : Type} : List (String × β) → String → β → List (String × β)
  | [], key, v => [(key, v)]
  | (k, b) :: t, key, v => if k = key then (key, v) :: t else (k, b) :: assign t key v

/-- The map assignment `h[key] = vs`. -/
def Header.store (h : Header) (key : String) (vs : List String) : Header :=
  assign h key vs

/-- Embeds `Header.Set`: the canonical key is bound to the single value. -/
def Header.Set (h : Header) (key value : String) : Header :=
  h.store (CanonicalMIMEHeaderKey key) [value]

/-- Embeds `Header.Add`: the value is appended to those of the canonical key. -/
def Header.Add (h : Header) (key value : String) : Header :=
  h.store (CanonicalMIMEHeaderKey key) (h.index (CanonicalMIMEHeaderKey key) ++ [value])

/-- Embeds `Header.Values`: all values of the canonical key. -/
def Header.Values (h : Header) (key : String) : List String :=
  h.index (CanonicalMIMEHeaderKey key)

/-- An `http.ResponseWriter` that records what the handler hands to it (as
`httptest.ResponseRecorder` does).  `header` is the live map `w.Header()`;
`sent` is the header block as it stood at the first `WriteHeader`, which is what
goes on the wire; `Write` never fails. -/
structure ResponseWriter where
  header : Header
  wroteHeader : Bool
  Code : Nat
  sent : Header
  body : String
deriving DecidableEq, Repr

/-- The writer the server hands to the handler chain for a new request. -/
def ResponseWriter.fresh : ResponseWriter :=
  { header := [], wroteHeader := false, Code := 200, sent := [], body := "" }

/-- Embeds `w.WriteHeader(code)`: only the first call takes effect. -/
def ResponseWriter.WriteHeader (w : ResponseWriter) (code : Nat) : ResponseWriter :=
  if w.wroteHeader then w
  else { w with wroteHeader := true, Code := code, sent := w.header }

/-- Embeds `w.Write(b)`: an implicit `WriteHeader(200)` when no header was written. -/
def ResponseWriter.Write (w : ResponseWriter) (b : String) : ResponseWriter × Option String :=
  let w1 := w.WriteHeader 200
  ({ w1 with body := w1.body ++ b }, none)

/-- Embeds `http.Error(w, error, code)`. -/
def Error (w : ResponseWriter) (error : String) (code : Nat) : ResponseWriter :=
  let w1 := { w with header := w.header.Set "Content-Type" "text/plain; charset=utf-8" }
  let w2 := { w1 with header := w1.header.Set "X-Content-Type-Options" "nosniff" }
  ((w2.WriteHeader code).Write (error ++ "\n")).1

def StatusOK : Nat := 200
def StatusBadRequest : Nat := 400
def StatusUnauthorized : Nat := 401
def StatusMethodNotAllowed : Nat := 405
def StatusUnprocessableEntity : Nat := 422
def StatusInternalServerError : Nat := 500

/-- Embeds `http.StatusText`, on the one code `rpcserver.go` passes to it. -/
def StatusText (code : Nat) : String :=
  if code = StatusUnauthorized then "Unauthorized" else ""

/-- The fields of `url.URL` the router reads. -/
structure URL where
  Path : String
  RawPath : String
deriving DecidableEq, Repr

/-- The fields of `http.Request` read by `rpcserver.go` and by the router it
mounts its handlers on.  `Body` is the outcome of `ioutil.ReadAll(r.Body)`. -/
structure Request where
  Method : String
  URL : URL
  Header : Header
  RemoteAddr : String
  Body : Except String String

/-! ## The logger, the file system and the world -/

inductive Level
  | Debug | Info | Warn | Error
deriving DecidableEq, Repr

/-- One line handed to the package logger `log`. -/
abbrev LogEntry := Level × String

structure File where
  data : String
  perm : Nat
deriving DecidableEq, Repr

/-- The file system as `os.Stat` sees it: the files, and the paths at which
`os.Stat` fails with an error other than `ErrNotExist` (`EACCES`, say). -/
structure FS where
  files : List (String × File)
  denied : List String
deriving DecidableEq, Repr

/-- The file-system calls made, in order. -/
inductive SysCall
  | stat (name : String)
  | read (name : String)
  | write (name : String) (ok : Bool)
  | remove (name : String) (ok : Bool)
deriving DecidableEq, Repr

/-- How `ioutil.WriteFile` can fail.  It opens the file with
`O_WRONLY|O_CREATE|O_TRUNC` and then writes: when the open fails nothing
changes; when the write (or the close) fails the file is there, created or
truncated, holding what was written of the data (`left`, possibly nothing). -/
inductive WriteFailure
  | atOpen (err : String)
  | afterOpen (err : String) (left : String)
deriving DecidableEq, Repr

/-- The error a failed write returns. -/
def WriteFailure.err : WriteFailure → String
  | .atOpen err => err
  | .afterOpen err _ => err

/-- What a call of this package can read or change: the client core behind
`clientCore`, the file system, the clock, the log and the trace of file-system
calls. -/
structure World (σ : Type) where
  core : σ
  fs : FS
  now : Nat
  log : List LogEntry
  calls : List SysCall

variable {σ P : Type}

def World.logf (st : World σ) (lvl : Level) (msg : String) : World σ :=
  { st with log := st.log ++ [(lvl, msg)] }

def World.call (st : World σ) (c : SysCall) : World σ :=
  { st with calls := st.calls ++ [c] }

/-! ## `msgjson` and the other declarations outside `rpcserver.go` -/

/-- Modelled from the spec: the direction marker of the wire envelope, declared
in `msgjson` (not in `rpcserver.go`): "request vs. response vs. notification".
Any other value of the underlying integer is `Other`. -/
inductive MessageType
  | Request | Response | Notification
  | Other (code : Nat)
deriving DecidableEq, Repr

/-- A `json.RawMessage`. -/
abbrev RawMessage := String

/-- Modelled from the spec: the wire envelope `msgjson.Message`, declared in
`msgjson`: "a message with an identifier, a direction marker, a route name and
an opaque parameter/result/error payload". -/
structure Message where
  Type_ : MessageType
  Route : String
  ID : Nat
  Payload : RawMessage
deriving DecidableEq, Repr

/-- Modelled from the spec: `msgjson.Error`, declared in `msgjson`: "error
carries a numeric code and human-readable message". -/
structure RPCError where
  Code : Int
  Message : String
deriving DecidableEq, Repr

/-- Modelled from the spec: `msgjson.NewError`, the constructor of an error
from its code and its message. -/
def NewError (code : Int) (msg : String) : RPCError :=
  { Code := code, Message := msg }

/-- Modelled from the spec: `msgjson.ResponsePayload`, declared in `msgjson`,
with its two fields `Result` and `Error`; `none` is Go's `nil`. -/
structure ResponsePayload where
  Result : Option RawMessage
  Error : Option RPCError
deriving DecidableEq, Repr

/-- Embeds `tls.Certificate`, as far as this package is concerned: the result of
parsing a certificate block and a key block. -/
structure Certificate where
  certPEMBlock : String
  keyPEMBlock : String
deriving DecidableEq, Repr

structure TLSConfig where
  Certificates : List Certificate
  MinVersion : Nat
deriving DecidableEq, Repr

/-- The `http.Server` built by `New`; the durations are in seconds. -/
structure HTTPServer where
  ReadTimeout : Nat
  WriteTimeout : Nat
deriving DecidableEq, Repr

/-- Embeds `RPCServer`.  The client core lives in the `World`; the router `mux` is
represented by what `New` and `Connect` mount on it (`RPCServer.ServeHTTP` below). -/
structure RPCServer where
  addr : String
  tlsConfig : TLSConfig
  srv : HTTPServer
  authSHA : List Byte
deriving DecidableEq, Repr

/-- Embeds `Config`, without the `Core` field (the core is in the `World`). -/
structure Config where
  Addr : String
  User : String
  Pass : String
  Cert : String
  Key : String
  CertHosts : List String
deriving DecidableEq, Repr

/-- A route handler, `func(s *RPCServer, params *RawParams) *msgjson.ResponsePayload`:
`P` stands for `RawParams` (declared in `types.go`). -/
abbrev RouteHandler (σ P : Type) := RPCServer → P → World σ → ResponsePayload × World σ

/-- An `http.Handler`. -/
abbrev HTTPHandler (σ : Type) := ResponseWriter → Request → World σ → ResponseWriter × World σ

/-- What `rpcserver.go` uses and does not define. -/
structure Deps (σ P : Type) where
  /-- stands for `sha256.Sum256` of the bytes of a string -/
  Sum256 : String → List Byte
  /-- stands for `base64.StdEncoding.EncodeToString` -/
  EncodeToString : String → String
  /-- stands for `json.Unmarshal(body, req)` for a `msgjson.Message` -/
  unmarshalMessage : String → Except String Message
  /-- stands for `req.Unmarshal(params)` for a `RawParams` -/
  unmarshalParams : RawMessage → Except String P
  /-- stands for `json.Marshal` of a `*msgjson.Message` -/
  marshalMessage : Message → Except String String
  /-- stands for `msgjson.RPCUnknownRoute` -/
  RPCUnknownRoute : Int
  /-- stands for `msgjson.RPCParseError` -/
  RPCParseError : Int
  /-- the JSON encoding of a response payload as the payload of the envelope
  (the two `json.Marshal` calls of `msgjson.NewResponse`) -/
  encodePayload : ResponsePayload → Except String RawMessage
  /-- the table `routes` of `handlers.go` -/
  routes : String → Option (RouteHandler σ P)
  /-- stands for `certgen.NewTLSCertPair(curve, org, validUntil, hosts)` -/
  NewTLSCertPair : String → String → Nat → List String → Except String (String × String)
  /-- stands for `tls.X509KeyPair(certPEMBlock, keyPEMBlock)` -/
  X509KeyPair : String → String → Except String Certificate
  /-- the failure of `ioutil.WriteFile(name, data, perm)` on a file system, if any -/
  writeFileErr : FS → String → String → Option WriteFailure
  /-- the error of `os.Remove(name)` on a file system, if any -/
  removeErr : FS → String → Option String
  /-- stands for `s.wsServer.HandleConnect(ctx, w, r)` of package `websocket` -/
  wsHandleConnect : HTTPHandler σ
  /-- the address `middleware.RealIP` of `chi` takes from the headers of a
  request, empty when it finds none -/
  realIP : Request → String

/-- Modelled from the spec: `msgjson.NewResponse` is declared in `msgjson`, not
in `rpcserver.go`.  The spec has the payload wrapped "in a response envelope
carrying the original request identifier".  The function refuses the identifier
0, which no response may carry, and returns the error of the JSON encoding when
that fails; this is the error `parseHTTPRequest` handles. -/
def NewResponse (X : Deps σ P) (id : Nat) (result : Option RawMessage)
    (rpcErr : Option RPCError) : Except String Message :=
  if id = 0 then .error "id = 0 not allowed for a response"
  else
    match X.encodePayload { Result := result, Error := rpcErr } with
    | .error e => .error e
    | .ok enc => .ok { Type_ := .Response, Route := "", ID := id, Payload := enc }

def rpcTimeoutSeconds : Nat := 10

/-- The text of `errUnknownCmd`. -/
def errUnknownCmd : String := "unknown command"

/-! ## The request pipeline -/

/-- Embeds `writeJSONWithStatus`, for the one kind of value it is given here, a
`*msgjson.Message`. -/
def writeJSONWithStatus (X : Deps σ P) (w : ResponseWriter) (thing : Message) (code : Nat)
    (st : World σ) : ResponseWriter × World σ :=
  let w := { w with header := w.header.Set "Content-Type" "application/json; charset=utf-8" }
  match X.marshalMessage thing with
  | .error err =>
    (w.WriteHeader StatusInternalServerError, st.logf .Error ("JSON encode error: " ++ err))
  | .ok b =>
    let w := w.WriteHeader code
    match w.Write b with
    | (w, some err) => (w, st.logf .Error ("Write error: " ++ err))
    | (w, none) => (w, st)

/-- Embeds `writeJSON`. -/
def writeJSON (X : Deps σ P) (w : ResponseWriter) (thing : Message) (st : World σ) :
    ResponseWriter × World σ :=
  writeJSONWithStatus X w thing StatusOK st

/-- Embeds `RPCServer.handleRequest`. -/
def RPCServer.handleRequest (X : Deps σ P) (s : RPCServer) (req : Message) (st : World σ) :
    ResponsePayload × World σ :=
  let payload : ResponsePayload := { Result := none, Error := none }
  if req.Route = "" then
    let st := st.logf .Debug "route not specified"
    ({ payload with Error := some (NewError X.RPCUnknownRoute "no route was supplied") }, st)
  else
    match X.routes req.Route with
    | none =>
      let st := st.logf .Debug (errUnknownCmd ++ ": " ++ req.Route)
      ({ payload with Error := some (NewError X.RPCUnknownRoute errUnknownCmd) }, st)
    | some h =>
      match X.unmarshalParams req.Payload with
      | .error _ =>
        let st := st.logf .Debug ("cannot unmarshal params for route " ++ req.Route)
        ({ payload with
            Error := some (NewError X.RPCParseError "unable to unmarshal request") }, st)
      | .ok params => h s params st

/-- Embeds `RPCServer.parseHTTPRequest`. -/
def RPCServer.parseHTTPRequest (X : Deps σ P) (s : RPCServer) (w : ResponseWriter)
    (req : Message) (st : World σ) : ResponseWriter × World σ :=
  match s.handleRequest X req st with
  | (payload, st) =>
    match NewResponse X req.ID payload.Result payload.Error with
    | .error err =>
      let msg := "error encoding response: " ++ err
      let w := Error w msg StatusInternalServerError
      (w, st.logf .Error ("parseHTTPRequest: NewResponse failed: " ++ msg))
    | .ok resp => writeJSON X w resp st

/-- Embeds `RPCServer.handleJSON`.  (`r.Close = true` sets a field that no code in
this package reads; `r.Body.Close()` ends the reading of the body.) -/
def RPCServer.handleJSON (X : Deps σ P) (s : RPCServer) : HTTPHandler σ := fun w r st =>
  let w := { w with header := w.header.Set "Connection" "close" }
  let w := { w with header := w.header.Set "Content-Type" "application/json" }
  match r.Body with
  | .error _ => (Error w "error reading request body" StatusBadRequest, st)
  | .ok body =>
    match X.unmarshalMessage body with
    | .error _ => (Error w "JSON decode error" StatusUnprocessableEntity, st)
    | .ok req =>
      if req.Type_ ≠ MessageType.Request then
        (Error w "Responses not accepted" StatusMethodNotAllowed, st)
      else s.parseHTTPRequest X w req st

/-- The closure `fail` of `authMiddleware`. -/
def authFail (w : ResponseWriter) (r : Request) (st : World σ) : ResponseWriter × World σ :=
  let st := st.logf .Warn ("authentication failure from ip: " ++ r.RemoteAddr)
  let w := { w with header := w.header.Add "WWW-Authenticate" "Basic realm=\"dex RPC\"" }
  (Error w (StatusText StatusUnauthorized) StatusUnauthorized, st)

/-- Embeds `RPCServer.authMiddleware`. -/
def RPCServer.authMiddleware (X : Deps σ P) (s : RPCServer) (next : HTTPHandler σ) :
    HTTPHandler σ := fun w r st =>
  match r.Header.index "Authorization" with
  | [] => authFail w r st
  | auth0 :: _ =>
    let authSHA := X.Sum256 auth0
    if ConstantTimeCompare s.authSHA authSHA ≠ 1 then authFail w r st
    else next w r (st.logf .Debug ("authenticated user with ip: " ++ r.RemoteAddr))

/-! ## The router

`New` builds a `chi` router, puts three middlewares on it with `mux.Use` and
mounts `handleJSON` with `mux.Post("/", ...)`; `Connect` adds the WebSocket
handler with `mux.Get("/ws", ...)`.  Middlewares put on with `Use` run on every
request, before the routing. -/

/-- What a route leads to. -/
inductive Endpoint
  | handleJSON
  | wsHandleConnect
deriving DecidableEq, Repr

/-- A route of the router: method, pattern, endpoint. -/
structure Route where
  method : String
  pattern : String
  endpoint : Endpoint
deriving DecidableEq, Repr

/-- The routes on `mux`: the one `New` mounts and, once `Connect` has run
(`ws`), the one `Connect` mounts. -/
def mounted (ws : Bool) : List Route :=
  { method := "POST", pattern := "/", endpoint := .handleJSON } ::
    (if ws then [{ method := "GET", pattern := "/ws", endpoint := .wsHandleConnect }] else [])

/-- The methods `chi` knows (its `methodMap`). -/
def methodMap : List String :=
  ["CONNECT", "DELETE", "GET", "HEAD", "OPTIONS", "PATCH", "POST", "PUT", "TRACE"]

/-- The path `chi` routes on: `r.URL.RawPath` when it is set, else `r.URL.Path`,
and `/` when that is empty. -/
def routePath (r : Request) : String :=
  let p := if r.URL.RawPath ≠ "" then r.URL.RawPath else r.URL.Path
  if p = "" then "/" else p

/-- The default answer of `chi` to a method that has no route on a path that
has one, or that it does not know: `w.WriteHeader(405); w.Write(nil)`. -/
def methodNotAllowedHandler : HTTPHandler σ := fun w _ st =>
  (((w.WriteHeader StatusMethodNotAllowed).Write "").1, st)

def StatusNotFound : Nat := 404

/-- Embeds `http.NotFound`, the default answer of `chi` to a path without route. -/
def NotFound : HTTPHandler σ := fun w _ st =>
  (Error w "404 page not found" StatusNotFound, st)

/-- The routing of `chi` (`Mux.routeHTTP`) over routes whose patterns are plain
paths, as `/` and `/ws` are: the route with the method and the path of the
request if there is one; otherwise 405 when the path has a route for another
method, 404 when it has none. -/
def RPCServer.routeHTTP (X : Deps σ P) (s : RPCServer) (routes : List Route) :
    HTTPHandler σ := fun w r st =>
  if r.Method ∉ methodMap then methodNotAllowedHandler w r st
  else
    match routes.find? (fun rt => rt.pattern = routePath r ∧ rt.method = r.Method) with
    | some rt =>
      match rt.endpoint with
      | .handleJSON => s.handleJSON X w r st
      | .wsHandleConnect => X.wsHandleConnect w r st
    | none =>
      if routes.any (fun rt => rt.pattern = routePath r) then methodNotAllowedHandler w r st
      else NotFound w r st

/-- The middleware `middleware.Recoverer` of `chi`: it answers a panic of the
handlers below it; the handlers here are total functions, so it only passes the
request on. -/
def Recoverer (next : HTTPHandler σ) : HTTPHandler σ := next

/-- The request as `middleware.RealIP` passes it on. -/
def withRealIP (X : Deps σ P) (r : Request) : Request :=
  if X.realIP r = "" then r else { r with RemoteAddr := X.realIP r }

/-- The middleware `middleware.RealIP` of `chi`: `r.RemoteAddr` becomes the
address found in the headers, if one is found. -/
def RealIP (X : Deps σ P) (next : HTTPHandler σ) : HTTPHandler σ := fun w r st =>
  next w (withRealIP X r) st

/-- The handler of the server, `mux.ServeHTTP`: the three middlewares in the
order of `New` (`Recoverer`, `RealIP`, `s.authMiddleware`), then the routing. -/
def RPCServer.ServeHTTP (X : Deps σ P) (s : RPCServer) (ws : Bool) : HTTPHandler σ :=
  Recoverer (RealIP X (s.authMiddleware X (s.routeHTTP X (mounted ws))))

/-! ## The TLS identity on disk and the constructor -/

inductive StatResult
  | ok | notExist | otherError
deriving DecidableEq, Repr

/-- The outcome of `os.Stat(name)`. -/
def FS.Stat (fs : FS) (name : String) : StatResult :=
  if name ∈ fs.denied then .otherError
  else if (List.lookup name fs.files).isSome then .ok else .notExist

/-- Embeds `fileExists`: `_, err := os.Stat(name); return !os.IsNotExist(err)`. -/
def fileExists (name : String) (st : World σ) : Bool × World σ :=
  let st := st.call (.stat name)
  (decide (st.fs.Stat name ≠ StatResult.notExist), st)

/-- Embeds `os.ReadFile(name)`. -/
def ReadFile (name : String) (st : World σ) : Except String String × World σ :=
  let st := st.call (.read name)
  if name ∈ st.fs.denied then (.error ("open " ++ name ++ ": permission denied"), st)
  else
    match List.lookup name st.fs.files with
    | none => (.error ("open " ++ name ++ ": no such file or directory"), st)
    | some f => (.ok f.data, st)

/-- The file system after a successful `WriteFile`: a new file gets `perm`, an
existing one is truncated and keeps its mode. -/
def FS.put (fs : FS) (name data : String) (perm : Nat) : FS :=
  match List.lookup name fs.files with
  | none => { fs with files := assign fs.files name { data := data, perm := perm } }
  | some f => { fs with files := assign fs.files name { data := data, perm := f.perm } }

/-- The file system a failed write leaves. -/
def WriteFailure.after (f : WriteFailure) (fs : FS) (name : String) (perm : Nat) : FS :=
  match f with
  | .atOpen _ => fs
  | .afterOpen _ left => fs.put name left perm

/-- Embeds `ioutil.WriteFile(name, data, perm)`.  Whether and how it fails is up
to `Deps.writeFileErr`: a failure at the open leaves the file system as it was,
a failure after the open leaves the created or truncated file behind. -/
def WriteFile (X : Deps σ P) (name data : String) (perm : Nat) (st : World σ) :
    Option String × World σ :=
  match X.writeFileErr st.fs name data with
  | some f => (some f.err, { st with fs := f.after st.fs name perm }.call (.write name false))
  | none => (none, { st with fs := st.fs.put name data perm }.call (.write name true))

/-- Embeds `os.Remove(name)`, whose error `genCertPair` drops: the file, if there is
one, is unlinked, unless the removal fails (`Deps.removeErr`). -/
def Remove (X : Deps σ P) (name : String) (st : World σ) : World σ :=
  match X.removeErr st.fs name with
  | some _ => st.call (.remove name false)
  | none =>
    { st with fs := { st.fs with files := st.fs.files.filter (fun e => e.1 ≠ name) } }.call
      (.remove name true)

/-- Seconds in `time.Hour`. -/
def Hour : Nat := 3600

/-- Embeds `genCertPair`: the error returned (`none` is `nil`) and the world after. -/
def genCertPair (X : Deps σ P) (certFile keyFile : String) (hosts : List String)
    (st : World σ) : Option String × World σ :=
  let st := st.logf .Info "Generating TLS certificates..."
  let org := "dcrdex autogenerated cert"
  let validUntil := st.now + 10 * 365 * 24 * Hour
  match X.NewTLSCertPair "P-521" org validUntil hosts with
  | .error err => (some err, st)
  | .ok (cert, key) =>
    match WriteFile X certFile cert 0o644 st with
    | (some err, st) => (some err, st)
    | (none, st) =>
      match WriteFile X keyFile key 0o600 st with
      | (some err, st) => (some err, Remove X certFile st)
      | (none, st) => (none, st.logf .Info "Done generating TLS certificates")

/-- Embeds `tls.LoadX509KeyPair(certFile, keyFile)`: both files are read, the
certificate first, and handed to `tls.X509KeyPair`. -/
def LoadX509KeyPair (X : Deps σ P) (certFile keyFile : String) (st : World σ) :
    Except String Certificate × World σ :=
  match ReadFile certFile st with
  | (.error err, st) => (.error err, st)
  | (.ok certPEMBlock, st) =>
    match ReadFile keyFile st with
    | (.error err, st) => (.error err, st)
    | (.ok keyPEMBlock, st) => (X.X509KeyPair certPEMBlock keyPEMBlock, st)

/-- Embeds `tls.VersionTLS12`. -/
def VersionTLS12 : Nat := 0x0303

/-- Embeds `New`: the server or the error, and the world after. -/
def New (X : Deps σ P) (cfg : Config) (st : World σ) : Except String RPCServer × World σ :=
  if cfg.Pass = "" then (.error "missing RPC password", st)
  else
    match fileExists cfg.Key st with
    | (keyExists, st) =>
      match fileExists cfg.Cert st with
      | (certExists, st) =>
        if certExists = !keyExists then (.error "missing cert pair file", st)
        else
          match (if !keyExists && !certExists then genCertPair X cfg.Cert cfg.Key cfg.CertHosts st
                 else (none, st)) with
          | (some err, st) => (.error err, st)
          | (none, st) =>
            match LoadX509KeyPair X cfg.Cert cfg.Key st with
            | (.error err, st) => (.error err, st)
            | (.ok keypair, st) =>
              let tlsConfig : TLSConfig :=
                { Certificates := [keypair], MinVersion := VersionTLS12 }
              let httpServer : HTTPServer :=
                { ReadTimeout := rpcTimeoutSeconds, WriteTimeout := rpcTimeoutSeconds }
              let login := cfg.User ++ ":" ++ cfg.Pass
              let auth := "Basic " ++ X.EncodeToString login
              (.ok { addr := cfg.Addr, tlsConfig := tlsConfig, srv := httpServer,
                     authSHA := X.Sum256 auth }, st)

/-! ## `Connect` and its two goroutines

`Connect` and the goroutines it starts, as a transition system: a state records
where each of the three threads of control stands, the counter of `s.wg`, and
which shutdowns were invoked; an `Event` is one step of one of them (or of the
caller, who cancels the context and waits on the returned wait group).  Any
interleaving of the steps is a run. -/

namespace Connect

/-- Where `Connect` itself stands. -/
inductive PC
  | start | watcherStarted | serveStarted | returned | listenFailed
deriving DecidableEq, Repr

/-- Where the goroutine `<-ctx.Done(); s.srv.Shutdown(...)` stands. -/
inductive WatcherPC
  | waiting | woken | inShutdown | shutdownDone | returned
deriving DecidableEq, Repr

/-- Where the goroutine `s.srv.Serve(listener); s.wsServer.Shutdown()` stands. -/
inductive ServePC
  | serving | served | inShutdown | shutdownDone | returned
deriving DecidableEq, Repr

structure State where
  /-- whether `ctx.Done()` is closed -/
  cancelled : Bool
  main : PC
  /-- with `none` when the goroutine is not started yet -/
  watcher : Option WatcherPC
  serve : Option ServePC
  /-- the counter of `s.wg` -/
  wg : Nat
  /-- whether `s.srv.Shutdown` was invoked -/
  httpShutdown : Bool
  /-- whether `s.wsServer.Shutdown` was invoked -/
  wsShutdown : Bool
  /-- the caller's `wg.Wait()` has returned -/
  joined : Bool
deriving DecidableEq, Repr

inductive Event
  /-- the caller cancels the context -/
  | cancel
  /-- the call `tls.Listen` fails and `Connect` returns the error -/
  | listenFail
  /-- the statements `s.wg.Add(1); go func() { defer s.wg.Done(); <-ctx.Done(); ... }()` -/
  | goWatcher
  /-- the statements `s.mux.Get("/ws", ...); s.wg.Add(1); go func() { defer s.wg.Done(); ... }()` -/
  | goServe
  /-- the statement `return &s.wg, nil` -/
  | connectReturn
  /-- the receive `<-ctx.Done()` returns in the watcher -/
  | watcherWake
  /-- the watcher invokes `s.srv.Shutdown(context.Background())` -/
  | httpShutdownCall
  | httpShutdownReturn
  /-- the watcher returns: its deferred `s.wg.Done()` -/
  | watcherDone
  /-- the call `s.srv.Serve(listener)` returns, with whatever error -/
  | serveReturn
  /-- the serving goroutine invokes `s.wsServer.Shutdown()` -/
  | wsShutdownCall
  | wsShutdownReturn
  /-- the serving goroutine returns: its deferred `s.wg.Done()` -/
  | serveDone
  /-- the call `Wait()` returns on the wait group `Connect` returned -/
  | join
deriving DecidableEq, Repr

/-- The state when `Connect` is called. -/
def State.init : State :=
  { cancelled := false, main := .start, watcher := none, serve := none, wg := 0,
    httpShutdown := false, wsShutdown := false, joined := false }

/-- One step; `none` when the step cannot be taken in the state (a `Done()` on
a zero counter is a panic). -/
def step : Event → State → Option State
  | .cancel, c => some { c with cancelled := true }
  | .listenFail, c =>
    if c.main = .start then some { c with main := .listenFailed } else none
  | .goWatcher, c =>
    if c.main = .start then
      some { c with main := .watcherStarted, wg := c.wg + 1, watcher := some .waiting }
    else none
  | .goServe, c =>
    if c.main = .watcherStarted then
      some { c with main := .serveStarted, wg := c.wg + 1, serve := some .serving }
    else none
  | .connectReturn, c =>
    if c.main = .serveStarted then some { c with main := .returned } else none
  | .watcherWake, c =>
    if c.watcher = some .waiting ∧ c.cancelled = true then some { c with watcher := some .woken }
    else none
  | .httpShutdownCall, c =>
    if c.watcher = some .woken then
      some { c with watcher := some .inShutdown, httpShutdown := true }
    else none
  | .httpShutdownReturn, c =>
    if c.watcher = some .inShutdown then some { c with watcher := some .shutdownDone } else none
  | .watcherDone, c =>
    if c.watcher = some .shutdownDone ∧ 0 < c.wg then
      some { c with watcher := some .returned, wg := c.wg - 1 }
    else none
  | .serveReturn, c =>
    if c.serve = some .serving then some { c with serve := some .served } else none
  | .wsShutdownCall, c =>
    if c.serve = some .served then some { c with serve := some .inShutdown, wsShutdown := true }
    else none
  | .wsShutdownReturn, c =>
    if c.serve = some .inShutdown then some { c with serve := some .shutdownDone } else none
  | .serveDone, c =>
    if c.serve = some .shutdownDone ∧ 0 < c.wg then
      some { c with serve := some .returned, wg := c.wg - 1 }
    else none
  | .join, c =>
    if c.main = .returned ∧ c.wg = 0 then some { c with joined := true } else none

/-- A run: the steps taken one after the other. -/
def run : List Event → State → Option State
  | [], c => some c
  | e :: es, c =>
    match step e c with
    | none => none
    | some c2 => run es c2

/-- What a goroutine contributes to the counter of the wait group: 1 from the
`Add(1)` before its start until its deferred `Done()`. -/
def watcherLive : Option WatcherPC → Nat
  | none => 0
  | some .returned => 0
  | some _ => 1

def serveLive : Option ServePC → Nat
  | none => 0
  | some .returned => 0
  | some _ => 1

/-- The watcher is past `<-ctx.Done()`. -/
def watcherWoke : Option WatcherPC → Bool
  | none => false
  | some .waiting => false
  | some _ => true

/-- The watcher has invoked `s.srv.Shutdown`. -/
def watcherCalled : Option WatcherPC → Bool
  | none => false
  | some .waiting => false
  | some .woken => false
  | some _ => true

/-- The serving goroutine has invoked `s.wsServer.Shutdown`. -/
def serveCalled : Option ServePC → Bool
  | none => false
  | some .serving => false
  | some .served => false
  | some _ => true

/-- What holds in every state of every run. -/
structure Inv (c : State) : Prop where
  count : c.wg = watcherLive c.watcher + serveLive c.serve
  mainW : c.watcher = none ↔ (c.main = .start ∨ c.main = .listenFailed)
  mainS : c.serve = none ↔ (c.main = .start ∨ c.main = .listenFailed ∨ c.main = .watcherStarted)
  wCancel : watcherWoke c.watcher = true → c.cancelled = true
  wShut : watcherCalled c.watcher = true → c.httpShutdown = true
  sShut : serveCalled c.serve = true → c.wsShutdown = true
  join : c.joined = true → c.main = .returned ∧ c.wg = 0

end Connect

/-! ## Predicates used in the statements -/

/-- A request `authMiddleware` turns away: no `Authorization` value, or a first value
whose digest is not the stored one. -/
def Unauthenticated (X : Deps σ P) (s : RPCServer) (r : Request) : Prop :=
  r.Header.index "Authorization" = [] ∨
    ∃ h rest, r.Header.index "Authorization" = h :: rest ∧ X.Sum256 h ≠ s.authSHA

/-- A request `authMiddleware` lets through. -/
def Authenticated (X : Deps σ P) (s : RPCServer) (r : Request) : Prop :=
  ∃ h rest, r.Header.index "Authorization" = h :: rest ∧ X.Sum256 h = s.authSHA

/-- The response went out with the header `Connection: close`. -/
def DeclaresConnectionClose (w : ResponseWriter) : Prop :=
  w.wroteHeader = true ∧ w.sent.Values "Connection" = ["close"]

/-- Exactly one of `Result` and `Error` is set. -/
def ExactlyOne (p : ResponsePayload) : Prop :=
  (p.Result ≠ none ∧ p.Error = none) ∨ (p.Result = none ∧ p.Error ≠ none)

/-- There is a file at the path. -/
def FS.present (fs : FS) (name : String) : Bool :=
  (List.lookup name fs.files).isSome

instance (X : Deps σ P) (s : RPCServer) (r : Request) : Decidable (Authenticated X s r) :=
  match h : r.Header.index "Authorization" with
  | [] => isFalse (fun ⟨_, _, he, _⟩ => by rw [h] at he; cases he)
  | a :: l =>
    if hd : X.Sum256 a = s.authSHA then isTrue ⟨a, l, h, hd⟩
    else isFalse (fun ⟨_, _, he, hd2⟩ => by rw [h] at he; cases he; exact hd hd2)

instance (X : Deps σ P) (s : RPCServer) (r : Request) : Decidable (Unauthenticated X s r) :=
  match h : r.Header.index "Authorization" with
  | [] => isTrue (Or.inl h)
  | a :: l =>
    if hd : X.Sum256 a = s.authSHA then
      isFalse (fun hu => by
        rcases hu with he | ⟨_, _, he, hd2⟩
        · rw [h] at he
          cases he
        · rw [h] at he
          cases he
          exact hd2 hd)
    else isTrue (Or.inr ⟨a, l, h, hd⟩)

instance (w : ResponseWriter) : Decidable (DeclaresConnectionClose w) := by
  unfold DeclaresConnectionClose
  infer_instance

instance (p : ResponsePayload) : Decidable (ExactlyOne p) := by
  unfold ExactlyOne
  infer_instance

/-! ## A concrete instance

One interpretation of `Deps`, on which the definitions above can be run: the
digest is SHA-256 (FIPS 180-4) and the encoding is the standard base64 of
RFC 4648, as in Go; the JSON codecs, the certificate generator and the routes
are small stand-ins. -/

/-- The bytes of a Go string: its UTF-8 encoding. -/
def bytesOf (s : String) : List Nat :=
  (s.toList.flatMap String.utf8EncodeChar).map UInt8.toNat

namespace base64

/-- The alphabet of `base64.StdEncoding`. -/
def alphabet : List Char :=
  "ABCDEFGHIJKLMNOPQRSTUVWXYZabcdefghijklmnopqrstuvwxyz0123456789+/".toList

def digit (n : Nat) : Char := alphabet.getD n 'A'

/-- Three bytes become four digits; a last group of one or two bytes is padded
with `=`. -/
def encode : List Nat → List Char
  | a :: b :: c :: rest =>
    let n := a * 65536 + b * 256 + c
    digit (n / 262144) :: digit (n / 4096 % 64) :: digit (n / 64 % 64) :: digit (n % 64)
      :: encode rest
  | [a, b] =>
    let n := a * 65536 + b * 256
    [digit (n / 262144), digit (n / 4096 % 64), digit (n / 64 % 64), '=']
  | [a] =>
    let n := a * 65536
    [digit (n / 262144), digit (n / 4096 % 64), '=', '=']
  | [] => []

/-- Embeds `base64.StdEncoding.EncodeToString([]byte(s))`. -/
def EncodeToString (s : String) : String := String.mk (encode (bytesOf s))

end base64

namespace sha256

/-- The round constants. -/
def K : List Nat := [
  0x428a2f98, 0x71374491, 0xb5c0fbcf, 0xe9b5dba5, 0x3956c25b, 0x59f111f1, 0x923f82a4, 0xab1c5ed5,
  0xd807aa98, 0x12835b01, 0x243185be, 0x550c7dc3, 0x72be5d74, 0x80deb1fe, 0x9bdc06a7, 0xc19bf174,
  0xe49b69c1, 0xefbe4786, 0x0fc19dc6, 0x240ca1cc, 0x2de92c6f, 0x4a7484aa, 0x5cb0a9dc, 0x76f988da,
  0x983e5152, 0xa831c66d, 0xb00327c8, 0xbf597fc7, 0xc6e00bf3, 0xd5a79147, 0x06ca6351, 0x14292967,
  0x27b70a85, 0x2e1b2138, 0x4d2c6dfc, 0x53380d13, 0x650a7354, 0x766a0abb, 0x81c2c92e, 0x92722c85,
  0xa2bfe8a1, 0xa81a664b, 0xc24b8b70, 0xc76c51a3, 0xd192e819, 0xd6990624, 0xf40e3585, 0x106aa070,
  0x19a4c116, 0x1e376c08, 0x2748774c, 0x34b0bcb5, 0x391c0cb3, 0x4ed8aa4a, 0x5b9cca4f, 0x682e6ff3,
  0x748f82ee, 0x78a5636f, 0x84c87814, 0x8cc70208, 0x90befffa, 0xa4506ceb, 0xbef9a3f7, 0xc67178f2]

/-- The initial hash value. -/
def H0 : List Nat := [0x6a09e667, 0xbb67ae85, 0x3c6ef372, 0xa54ff53a, 0x510e527f, 0x9b05688c,
  0x1f83d9ab, 0x5be0cd19]

/-- Rotation to the right of a 32-bit word. -/
def rotr (x n : Nat) : Nat := ((x >>> n) ||| (x <<< (32 - n))) % 2 ^ 32

/-- The padding: a bit 1, zeros, and the length in bits on 64 bits, up to a
multiple of 64 bytes. -/
def pad (msg : List Nat) : List Nat :=
  let l := msg.length
  let k := (64 - (l + 9) % 64) % 64
  let bits := l * 8
  msg ++ [0x80] ++ List.replicate k 0 ++
    (List.range 8).map (fun i => (bits >>> (8 * (7 - i))) % 256)

/-- Big-endian 32-bit words. -/
def words : List Nat → List Nat
  | a :: b :: c :: d :: rest => (a * 16777216 + b * 65536 + c * 256 + d) :: words rest
  | _ => []

/-- The message schedule, newest word first: `n` more words. -/
def schedule : Nat → List Nat → List Nat
  | 0, w => w
  | n + 1, w =>
    let w2 := w.getD 1 0
    let w7 := w.getD 6 0
    let w15 := w.getD 14 0
    let w16 := w.getD 15 0
    let s0 := rotr w15 7 ^^^ rotr w15 18 ^^^ (w15 >>> 3)
    let s1 := rotr w2 17 ^^^ rotr w2 19 ^^^ (w2 >>> 10)
    schedule n (((w16 + s0 + w7 + s1) % 2 ^ 32) :: w)

/-- The eight working variables. -/
structure Regs where
  a : Nat
  b : Nat
  c : Nat
  d : Nat
  e : Nat
  f : Nat
  g : Nat
  h : Nat

/-- One of the 64 rounds, on the pair of a round constant and a schedule word. -/
def round (r : Regs) (kw : Nat × Nat) : Regs :=
  let S1 := rotr r.e 6 ^^^ rotr r.e 11 ^^^ rotr r.e 25
  let ch := (r.e &&& r.f) ^^^ ((r.e ^^^ (2 ^ 32 - 1)) &&& r.g)
  let t1 := (r.h + S1 + ch + kw.1 + kw.2) % 2 ^ 32
  let S0 := rotr r.a 2 ^^^ rotr r.a 13 ^^^ rotr r.a 22
  let maj := (r.a &&& r.b) ^^^ (r.a &&& r.c) ^^^ (r.b &&& r.c)
  let t2 := (S0 + maj) % 2 ^ 32
  { a := (t1 + t2) % 2 ^ 32, b := r.a, c := r.b, d := r.c, e := (r.d + t1) % 2 ^ 32,
    f := r.e, g := r.f, h := r.g }

/-- The compression of one block of 64 bytes into the hash value. -/
def compress (h : List Nat) (block : List Nat) : List Nat :=
  let w := (schedule 48 (words block).reverse).reverse
  let r0 : Regs := ⟨h.getD 0 0, h.getD 1 0, h.getD 2 0, h.getD 3 0, h.getD 4 0, h.getD 5 0,
    h.getD 6 0, h.getD 7 0⟩
  let r := (K.zip w).foldl round r0
  List.zipWith (fun x y => (x + y) % 2 ^ 32) h [r.a, r.b, r.c, r.d, r.e, r.f, r.g, r.h]

/-- The first `n` blocks of the padded message, one after the other. -/
def blocks : Nat → List Nat → List Nat → List Nat
  | 0, h, _ => h
  | n + 1, h, m => blocks n (compress h (m.take 64)) (m.drop 64)

/-- The digest of a sequence of bytes, as 32 bytes. -/
def sum (msg : List Nat) : List Nat :=
  let p := pad msg
  (blocks (p.length / 64) H0 p).flatMap
    (fun x => [x / 16777216, x / 65536 % 256, x / 256 % 256, x % 256])

/-- Embeds `sha256.Sum256([]byte(s))`. -/
def Sum256 (s : String) : List Byte := (sum (bytesOf s)).map Fin.ofNat

end sha256

/-- A core that counts the calls made to it. -/
abbrev SampleCore := Nat

/-- A handler in the style of `handlers.go`: one call to the core, and a result. -/
def handleVersion : RouteHandler SampleCore (List String) := fun _ _ st =>
  ({ Result := some "\"0.1.0\"", Error := none }, { st with core := st.core + 1 })

def sampleDeps : Deps SampleCore (List String) where
  Sum256 := sha256.Sum256
  EncodeToString := base64.EncodeToString
  unmarshalMessage := fun body =>
    if body = "request version" then .ok ⟨.Request, "version", 1, "[]"⟩
    else if body = "response" then .ok ⟨.Response, "", 1, "null"⟩
    else .error "invalid character"
  unmarshalParams := fun raw => if raw = "[]" then .ok [] else .error "cannot unmarshal"
  marshalMessage := fun m => .ok (toString m.ID ++ ":" ++ m.Payload)
  RPCUnknownRoute := 2
  RPCParseError := 1
  encodePayload := fun p => .ok ((p.Result.getD "null") ++ "," ++
    (match p.Error with | none => "null" | some e => e.Message))
  routes := fun route => if route = "version" then some handleVersion else none
  NewTLSCertPair := fun _ org _ _ => .ok ("CERTIFICATE " ++ org, "EC PRIVATE KEY")
  X509KeyPair := fun c k =>
    if c = "" ∨ k = "" then .error "tls: failed to find any PEM data" else .ok ⟨c, k⟩
  writeFileErr := fun _ name _ =>
    if name = "/ro/rpc.key" then some (.atOpen "open /ro/rpc.key: read-only file system") else none
  removeErr := fun _ _ => none
  wsHandleConnect := fun w _ st => (((w.WriteHeader 101).Write "").1, st)
  realIP := fun r => (r.Header.Values "X-Real-IP").headD ""

/-- The same, on a disk that is full: the file is created, nothing is written. -/
def diskFullDeps : Deps SampleCore (List String) :=
  { sampleDeps with
    writeFileErr := fun _ name _ =>
      some (.afterOpen ("write " ++ name ++ ": no space left on device") "") }

def sampleConfig : Config :=
  { Addr := "127.0.0.1:5757", User := "u", Pass := "p", Cert := "rpc.cert", Key := "rpc.key",
    CertHosts := ["localhost"] }

/-- A world with no file. -/
def emptyWorld : World SampleCore :=
  { core := 0, fs := { files := [], denied := [] }, now := 0, log := [], calls := [] }

/-- A world in which the pair of `sampleConfig` is on disk. -/
def sampleWorld : World SampleCore :=
  { emptyWorld with
    fs := { files := [("rpc.cert", ⟨"CERT", 0o644⟩), ("rpc.key", ⟨"KEY", 0o600⟩)], denied := [] } }

/-- A world in which only the certificate of `sampleConfig` is on disk. -/
def certOnlyWorld : World SampleCore :=
  { emptyWorld with fs := { files := [("rpc.cert", ⟨"CERT", 0o644⟩)], denied := [] } }

/-- The server `New` builds from `sampleConfig` in `sampleWorld`. -/
def sampleServer : RPCServer :=
  { addr := "127.0.0.1:5757",
    tlsConfig := { Certificates := [⟨"CERT", "KEY"⟩], MinVersion := VersionTLS12 },
    srv := { ReadTimeout := 10, WriteTimeout := 10 },
    authSHA := sampleDeps.Sum256 "Basic dTpw" }

/-- A request without credentials. -/
def anonymousRequest : Request :=
  { Method := "POST", URL := { Path := "/", RawPath := "" },
    Header := [("Content-Type", ["application/json"])], RemoteAddr := "10.0.0.7:4711",
    Body := .ok "request version" }

/-- A request with the credentials of `sampleConfig`, and one further value. -/
def sampleRequest : Request :=
  { Method := "POST", URL := { Path := "/", RawPath := "" },
    Header := [("Authorization", ["Basic dTpw", "Basic x"])], RemoteAddr := "10.0.0.7:4711",
    Body := .ok "request version" }

/-- The same credentials on a `GET /`. -/
def getRequest : Request :=
  { sampleRequest with Method := "GET", Body := .ok "" }

/-- A request with other credentials. -/
def wrongRequest : Request :=
  { Method := "POST", URL := { Path := "/", RawPath := "" },
    Header := [("Authorization", ["Basic dTpx"])], RemoteAddr := "10.0.0.7:4711",
    Body := .ok "request version" }

/-! ## Theorems -/

/-! ### Association lists -/

theorem lookup_assign_self {β : Type} (m : List (String × β)) (key : String) (v : β) :
    List.lookup key (assign m key v) = some v := by
  induction m with
  | nil => simp [assign, List.lookup]
  | cons e t ih =>
    obtain ⟨k, b⟩ := e
    by_cases hk : k = key
    · simp [assign, hk, List.lookup]
    · have hk2 : (key == k) = false := by
        simpa using fun h : key = k => hk h.symm
      simp [assign, hk, List.lookup, hk2, ih]

theorem lookup_assign_of_ne {β : Type} (m : List (String × β)) (key key2 : String) (v : β)
    (hne : key2 ≠ key) : List.lookup key2 (assign m key v) = List.lookup key2 m := by
  induction m with
  | nil =>
    have h2 : (key2 == key) = false := by simpa using hne
    simp [assign, List.lookup, h2]
  | cons e t ih =>
    obtain ⟨k, b⟩ := e
    by_cases hk : k = key
    · subst hk
      have h2 : (key2 == k) = false := by simpa using hne
      simp [assign, List.lookup, h2]
    · by_cases h3 : key2 = k
      · subst h3
        simp [assign, hk, List.lookup]
      · have h4 : (key2 == k) = false := by simpa using h3
        simp [assign, hk, List.lookup, h4, ih]

theorem index_store_self (h : Header) (key : String) (vs : List String) :
    (h.store key vs).index key = vs := by
  simp [Header.index, Header.store, lookup_assign_self]

theorem index_store_of_ne (h : Header) (key key2 : String) (vs : List String)
    (hne : key2 ≠ key) : (h.store key vs).index key2 = h.index key2 := by
  simp [Header.index, Header.store, lookup_assign_of_ne _ _ _ _ hne]

/-! ### The constant-time comparison -/

theorem or_eq_zero_iff (a b : Nat) : a ||| b = 0 ↔ a = 0 ∧ b = 0 := by
  constructor
  · intro h
    have hbit : ∀ i, Nat.testBit a i = false ∧ Nat.testBit b i = false := by
      intro i
      have := congrArg (fun n => Nat.testBit n i) h
      simpa [Nat.testBit_or] using this
    exact ⟨Nat.eq_of_testBit_eq (by intro i; simp [(hbit i).1]),
      Nat.eq_of_testBit_eq (by intro i; simp [(hbit i).2])⟩
  · rintro ⟨rfl, rfl⟩
    rfl

theorem byte_step_lt (v : Nat) (a b : Byte) : (v ||| (a.val ^^^ b.val)) % 2 ^ 8 < 2 ^ 8 :=
  Nat.mod_lt _ (by norm_num)

theorem byte_step_eq_zero (v : Nat) (a b : Byte) (hv : v < 2 ^ 8) :
    (v ||| (a.val ^^^ b.val)) % 2 ^ 8 = 0 ↔ v = 0 ∧ a = b := by
  have hx : a.val ^^^ b.val < 2 ^ 8 := Nat.xor_lt_two_pow a.isLt b.isLt
  have ho : v ||| (a.val ^^^ b.val) < 2 ^ 8 := Nat.or_lt_two_pow hv hx
  rw [Nat.mod_eq_of_lt ho, or_eq_zero_iff, Nat.xor_eq_zero]
  constructor
  · rintro ⟨h1, h2⟩
    exact ⟨h1, Fin.ext h2⟩
  · rintro ⟨h1, h2⟩
    exact ⟨h1, congrArg Fin.val h2⟩

theorem xorAcc_lt (x y : List Byte) (v : Nat) (hv : v < 2 ^ 8) : xorAcc v x y < 2 ^ 8 := by
  induction x generalizing y v with
  | nil => simpa [xorAcc] using hv
  | cons a x ih =>
    cases y with
    | nil => simpa [xorAcc] using hv
    | cons b y =>
      simp only [xorAcc]
      exact ih y _ (byte_step_lt v a b)

theorem xorAcc_eq_zero (x y : List Byte) (v : Nat) (hv : v < 2 ^ 8)
    (hlen : x.length = y.length) : xorAcc v x y = 0 ↔ v = 0 ∧ x = y := by
  induction x generalizing y v with
  | nil =>
    cases y with
    | nil => simp [xorAcc]
    | cons b y => simp at hlen
  | cons a x ih =>
    cases y with
    | nil => simp at hlen
    | cons b y =>
      have hl : x.length = y.length := by simpa using hlen
      simp only [xorAcc]
      rw [ih y _ (byte_step_lt v a b) hl, byte_step_eq_zero v a b hv]
      constructor
      · rintro ⟨⟨h1, h2⟩, h3⟩
        exact ⟨h1, by rw [h2, h3]⟩
      · rintro ⟨h1, h2⟩
        injection h2 with h2 h3
        exact ⟨⟨h1, h2⟩, h3⟩

theorem ConstantTimeByteEq_zero (v : Nat) (hv : v < 2 ^ 8) :
    ConstantTimeByteEq v 0 = 1 ↔ v = 0 := by
  unfold ConstantTimeByteEq
  rw [Nat.xor_zero, Nat.mod_eq_of_lt hv, Nat.shiftRight_eq_div_pow]
  constructor
  · intro h
    by_contra hne
    have h1 : v + 2 ^ 32 - 1 = (v - 1) + 2 ^ 32 := by omega
    rw [h1, Nat.add_mod_right, Nat.mod_eq_of_lt (by omega)] at h
    have : (v - 1) / 2 ^ 31 = 0 := Nat.div_eq_of_lt (by omega)
    omega
  · rintro rfl
    norm_num

/-- The function `subtle.ConstantTimeCompare` answers 1 exactly on equal byte strings. -/
theorem ConstantTimeCompare_eq_one (x y : List Byte) : ConstantTimeCompare x y = 1 ↔ x = y := by
  unfold ConstantTimeCompare
  by_cases hlen : x.length = y.length
  · have hv : xorAcc 0 x y < 2 ^ 8 := xorAcc_lt x y 0 (by norm_num)
    simp only [hlen, ne_eq, not_true_eq_false, if_false]
    rw [ConstantTimeByteEq_zero _ hv, xorAcc_eq_zero x y 0 (by norm_num) hlen]
    simp
  · simp only [ne_eq, hlen, not_false_eq_true, if_true]
    constructor
    · intro h
      exact absurd h (by norm_num)
    · intro h
      exact absurd (congrArg List.length h) hlen

/-! ### Test vectors of the concrete digest and encoding -/

theorem Sum256_abc :
    sha256.sum (bytesOf "abc") =
      [0xba, 0x78, 0x16, 0xbf, 0x8f, 0x01, 0xcf, 0xea, 0x41, 0x41, 0x40, 0xde, 0x5d, 0xae, 0x22,
       0x23, 0xb0, 0x03, 0x61, 0xa3, 0x96, 0x17, 0x7a, 0x9c, 0xb4, 0x10, 0xff, 0x61, 0xf2, 0x00,
       0x15, 0xad] := by
  decide

set_option maxRecDepth 100000 in
theorem Sum256_two_blocks :
    sha256.sum (bytesOf "abcdbcdecdefdefgefghfghighijhijkijkljklmklmnlmnomnopnopq") =
      [0x24, 0x8d, 0x6a, 0x61, 0xd2, 0x06, 0x38, 0xb8, 0xe5, 0xc0, 0x26, 0x93, 0x0c, 0x3e, 0x60,
       0x39, 0xa3, 0x3c, 0xe4, 0x59, 0x64, 0xff, 0x21, 0x67, 0xf6, 0xec, 0xed, 0xd4, 0x19, 0xdb,
       0x06, 0xc1] := by
  decide

theorem EncodeToString_vectors :
    base64.EncodeToString "u:p" = "dTpw" ∧ base64.EncodeToString "user:passw" = "dXNlcjpwYXNzdw==" ∧
      base64.EncodeToString "user:passwo" = "dXNlcjpwYXNzd28=" := by
  decide

/-! ### The credential check -/

theorem New_authSHA (X : Deps σ P) (cfg : Config) (st0 st1 : World σ) (s : RPCServer)
    (hNew : New X cfg st0 = (.ok s, st1)) :
    s.authSHA = X.Sum256 ("Basic " ++ X.EncodeToString (cfg.User ++ ":" ++ cfg.Pass)) := by
  unfold New at hNew
  repeat' split at hNew
  all_goals first
    | (simp only [Prod.mk.injEq] at hNew
       obtain ⟨h1, -⟩ := hNew
       injection h1 with h1
       rw [← h1])
    | simp at hNew

theorem authFail_wroteHeader (w : ResponseWriter) (r : Request) (st : World σ) :
    (authFail w r st).1.wroteHeader = true := by
  simp only [authFail, Error, ResponseWriter.Write, ResponseWriter.WriteHeader]
  split <;> simp_all

theorem authMiddleware_pass (X : Deps σ P) (s : RPCServer) (next : HTTPHandler σ)
    (w : ResponseWriter) (r : Request) (st : World σ) (h : String) (rest : List String)
    (hh : r.Header.index "Authorization" = h :: rest) (hd : X.Sum256 h = s.authSHA) :
    s.authMiddleware X next w r st
      = next w r (st.logf .Debug ("authenticated user with ip: " ++ r.RemoteAddr)) := by
  have hc : ConstantTimeCompare s.authSHA (X.Sum256 h) = 1 :=
    (ConstantTimeCompare_eq_one _ _).2 hd.symm
  simp [RPCServer.authMiddleware, hh, hc]

theorem authMiddleware_fail_absent (X : Deps σ P) (s : RPCServer) (next : HTTPHandler σ)
    (w : ResponseWriter) (r : Request) (st : World σ)
    (hh : r.Header.index "Authorization" = []) :
    s.authMiddleware X next w r st = authFail w r st := by
  simp [RPCServer.authMiddleware, hh]

theorem authMiddleware_fail_mismatch (X : Deps σ P) (s : RPCServer) (next : HTTPHandler σ)
    (w : ResponseWriter) (r : Request) (st : World σ) (h : String) (rest : List String)
    (hh : r.Header.index "Authorization" = h :: rest) (hd : X.Sum256 h ≠ s.authSHA) :
    s.authMiddleware X next w r st = authFail w r st := by
  have hc : ConstantTimeCompare s.authSHA (X.Sum256 h) ≠ 1 := fun hc =>
    hd ((ConstantTimeCompare_eq_one _ _).1 hc).symm
  simp [RPCServer.authMiddleware, hh, hc]

/-- C1: for a server built by `New` from the user name `cfg.User` and the
secret `cfg.Pass`, `authMiddleware` hands the request to the next handler
(whatever that handler is) if and only if the request has at least one
`Authorization` value and the SHA-256 digest of the first one equals the digest
of `"Basic " + base64(User + ":" + Pass)`, which is the `authSHA` that `New`
stored; the values after the first play no part. -/
theorem authMiddleware_passes_iff (X : Deps σ P) (cfg : Config) (st0 st1 : World σ)
    (s : RPCServer) (hNew : New X cfg st0 = (.ok s, st1))
    (w : ResponseWriter) (r : Request) (st : World σ) :
    s.authSHA = X.Sum256 ("Basic " ++ X.EncodeToString (cfg.User ++ ":" ++ cfg.Pass)) ∧
    ((∀ next : HTTPHandler σ, s.authMiddleware X next w r st
        = next w r (st.logf .Debug ("authenticated user with ip: " ++ r.RemoteAddr)))
      ↔ ∃ h rest, r.Header.index "Authorization" = h :: rest ∧
          X.Sum256 h = X.Sum256 ("Basic " ++ X.EncodeToString (cfg.User ++ ":" ++ cfg.Pass))) := by
  have hsha := New_authSHA X cfg st0 st1 s hNew
  refine ⟨hsha, ?_, ?_⟩
  · intro hall
    have hnext := hall (fun _ _ st2 => (ResponseWriter.fresh, st2))
    have hfresh : (s.authMiddleware X (fun _ _ st2 => (ResponseWriter.fresh, st2)) w r st).1.wroteHeader
        = false := by
      rw [hnext]
      rfl
    cases hh : r.Header.index "Authorization" with
    | nil =>
      rw [authMiddleware_fail_absent X s _ w r st hh, authFail_wroteHeader] at hfresh
      exact absurd hfresh (by decide)
    | cons h rest =>
      by_cases hd : X.Sum256 h = s.authSHA
      · exact ⟨h, rest, rfl, hd.trans hsha⟩
      · rw [authMiddleware_fail_mismatch X s _ w r st h rest hh hd, authFail_wroteHeader] at hfresh
        exact absurd hfresh (by decide)
  · rintro ⟨h, rest, hh, hd⟩ next
    exact authMiddleware_pass X s next w r st h rest hh (hd.trans hsha.symm)

theorem sample_New : New sampleDeps sampleConfig sampleWorld
    = (.ok sampleServer,
       { sampleWorld with calls := [.stat "rpc.key", .stat "rpc.cert", .read "rpc.cert",
                                    .read "rpc.key"] }) := by
  rfl

theorem authMiddleware_passes_iff_witness :
    New sampleDeps sampleConfig sampleWorld
      = (.ok sampleServer,
         { sampleWorld with calls := [.stat "rpc.key", .stat "rpc.cert", .read "rpc.cert",
                                      .read "rpc.key"] }) ∧
    sampleRequest.Header.index "Authorization" = ["Basic dTpw", "Basic x"] ∧
    (∀ next : HTTPHandler SampleCore,
      sampleServer.authMiddleware sampleDeps next ResponseWriter.fresh sampleRequest emptyWorld
        = next ResponseWriter.fresh sampleRequest
            (emptyWorld.logf .Debug "authenticated user with ip: 10.0.0.7:4711")) :=
  ⟨sample_New, rfl,
    (authMiddleware_passes_iff sampleDeps sampleConfig sampleWorld _ sampleServer sample_New
      ResponseWriter.fresh sampleRequest emptyWorld).2.2 ⟨"Basic dTpw", ["Basic x"], rfl, rfl⟩⟩

/-! ### Headers of the responses -/

theorem Values_Set_self (h : Header) (key value : String) :
    (h.Set key value).Values key = [value] := by
  simp [Header.Set, Header.Values, index_store_self]

theorem Values_Set_of_ne (h : Header) (key key2 value : String)
    (hne : CanonicalMIMEHeaderKey key2 ≠ CanonicalMIMEHeaderKey key) :
    (h.Set key value).Values key2 = h.Values key2 := by
  simp [Header.Set, Header.Values, index_store_of_ne _ _ _ _ hne]

theorem Values_Add_self (h : Header) (key value : String) :
    (h.Add key value).Values key = h.Values key ++ [value] := by
  simp [Header.Add, Header.Values, index_store_self]

theorem Values_Add_of_ne (h : Header) (key key2 value : String)
    (hne : CanonicalMIMEHeaderKey key2 ≠ CanonicalMIMEHeaderKey key) :
    (h.Add key value).Values key2 = h.Values key2 := by
  simp [Header.Add, Header.Values, index_store_of_ne _ _ _ _ hne]

/-- What `http.Error` does on a writer whose header is not yet written. -/
theorem Error_eq (w : ResponseWriter) (msg : String) (code : Nat)
    (hw : w.wroteHeader = false) :
    Error w msg code =
      { header := (w.header.Set "Content-Type" "text/plain; charset=utf-8").Set
          "X-Content-Type-Options" "nosniff",
        wroteHeader := true, Code := code,
        sent := (w.header.Set "Content-Type" "text/plain; charset=utf-8").Set
          "X-Content-Type-Options" "nosniff",
        body := w.body ++ (msg ++ "\n") } := by
  simp [Error, ResponseWriter.Write, ResponseWriter.WriteHeader, hw]

/-- What `http.Error` sends under a header name other than the two it sets. -/
theorem Error_sent_Values (w : ResponseWriter) (msg : String) (code : Nat) (key : String)
    (hw : w.wroteHeader = false)
    (h1 : CanonicalMIMEHeaderKey key ≠ CanonicalMIMEHeaderKey "Content-Type")
    (h2 : CanonicalMIMEHeaderKey key ≠ CanonicalMIMEHeaderKey "X-Content-Type-Options") :
    (Error w msg code).sent.Values key = w.header.Values key := by
  rw [Error_eq w msg code hw]
  simp only []
  rw [Values_Set_of_ne _ _ _ _ h2, Values_Set_of_ne _ _ _ _ h1]

theorem authMiddleware_fail (X : Deps σ P) (s : RPCServer) (next : HTTPHandler σ)
    (w : ResponseWriter) (r : Request) (st : World σ) (hrej : Unauthenticated X s r) :
    s.authMiddleware X next w r st = authFail w r st := by
  rcases hrej with hh | ⟨h, rest, hh, hd⟩
  · exact authMiddleware_fail_absent X s next w r st hh
  · exact authMiddleware_fail_mismatch X s next w r st h rest hh hd

/-- Every request is either let through or turned away, never both. -/
theorem authenticated_xor (X : Deps σ P) (s : RPCServer) (r : Request) :
    (Authenticated X s r ∨ Unauthenticated X s r) ∧
      ¬ (Authenticated X s r ∧ Unauthenticated X s r) := by
  unfold Authenticated Unauthenticated
  cases hh : r.Header.index "Authorization" with
  | nil => simp
  | cons a l =>
    by_cases hd : X.Sum256 a = s.authSHA
    · simp [hd]
    · simp [hd]

/-- C2: a request that `authMiddleware` turns away (no `Authorization` value,
or a digest that differs) gets status 401 with the `WWW-Authenticate`
challenge; the response is the same whichever of the two reasons applies and
whatever the request is; the next handler is not run: the outcome does not
depend on it and the world only gains the warning in the log. -/
theorem authMiddleware_reject (X : Deps σ P) (s : RPCServer) (next next2 : HTTPHandler σ)
    (w : ResponseWriter) (r r2 : Request) (st st2 : World σ)
    (hw : w.wroteHeader = false)
    (hrej : Unauthenticated X s r) (hrej2 : Unauthenticated X s r2) :
    (s.authMiddleware X next w r st).1.Code = StatusUnauthorized ∧
    (s.authMiddleware X next w r st).1.sent.Values "WWW-Authenticate"
      = w.header.Values "WWW-Authenticate" ++ ["Basic realm=\"dex RPC\""] ∧
    (s.authMiddleware X next w r st).1.body = w.body ++ "Unauthorized\n" ∧
    (s.authMiddleware X next w r st).1 = (s.authMiddleware X next2 w r2 st2).1 ∧
    (s.authMiddleware X next w r st).2
      = st.logf .Warn ("authentication failure from ip: " ++ r.RemoteAddr) := by
  rw [authMiddleware_fail X s next w r st hrej, authMiddleware_fail X s next2 w r2 st2 hrej2]
  have hw2 : ({ w with header := w.header.Add "WWW-Authenticate" "Basic realm=\"dex RPC\"" } :
      ResponseWriter).wroteHeader = false := hw
  refine ⟨?_, ?_, ?_, rfl, rfl⟩
  · simp only [authFail]
    rw [Error_eq _ _ _ hw2]
  · simp only [authFail]
    rw [Error_sent_Values _ _ _ _ hw2 (by decide) (by decide)]
    exact Values_Add_self _ _ _
  · simp only [authFail]
    rw [Error_eq _ _ _ hw2]
    rfl

theorem authMiddleware_reject_witness :
    Unauthenticated sampleDeps sampleServer anonymousRequest ∧
    Unauthenticated sampleDeps sampleServer wrongRequest ∧
    (sampleServer.authMiddleware sampleDeps (sampleServer.handleJSON sampleDeps)
        ResponseWriter.fresh anonymousRequest emptyWorld).1.Code = 401 ∧
    (sampleServer.authMiddleware sampleDeps (sampleServer.handleJSON sampleDeps)
        ResponseWriter.fresh anonymousRequest emptyWorld).1
      = (sampleServer.authMiddleware sampleDeps (sampleServer.handleJSON sampleDeps)
          ResponseWriter.fresh wrongRequest emptyWorld).1 :=
  have h1 : Unauthenticated sampleDeps sampleServer anonymousRequest := Or.inl rfl
  have h2 : Unauthenticated sampleDeps sampleServer wrongRequest :=
    Or.inr ⟨"Basic dTpx", [], rfl, by decide⟩
  have h := authMiddleware_reject sampleDeps sampleServer (sampleServer.handleJSON sampleDeps)
    (sampleServer.handleJSON sampleDeps) ResponseWriter.fresh anonymousRequest wrongRequest
    emptyWorld emptyWorld rfl h1 h2
  ⟨h1, h2, h.1, h.2.2.2.1⟩

/-! ### `Connection: close` -/

theorem Error_declares (w : ResponseWriter) (msg : String) (code : Nat)
    (hw : w.wroteHeader = false) (hc : w.header.Values "Connection" = ["close"]) :
    DeclaresConnectionClose (Error w msg code) := by
  refine ⟨?_, ?_⟩
  · rw [Error_eq w msg code hw]
  · rw [Error_sent_Values w msg code "Connection" hw (by decide) (by decide), hc]

theorem writeJSONWithStatus_declares (X : Deps σ P) (w : ResponseWriter) (thing : Message)
    (code : Nat) (st : World σ)
    (hw : w.wroteHeader = false) (hc : w.header.Values "Connection" = ["close"]) :
    DeclaresConnectionClose (writeJSONWithStatus X w thing code st).1 := by
  have hc2 : (w.header.Set "Content-Type" "application/json; charset=utf-8").Values "Connection"
      = ["close"] := by
    rw [Values_Set_of_ne _ _ _ _ (by decide), hc]
  unfold writeJSONWithStatus
  cases X.marshalMessage thing with
  | error err => simp [DeclaresConnectionClose, ResponseWriter.WriteHeader, hw, hc2]
  | ok b =>
    simp [DeclaresConnectionClose, ResponseWriter.WriteHeader, ResponseWriter.Write, hw, hc2]

theorem parseHTTPRequest_declares (X : Deps σ P) (s : RPCServer) (w : ResponseWriter)
    (req : Message) (st : World σ)
    (hw : w.wroteHeader = false) (hc : w.header.Values "Connection" = ["close"]) :
    DeclaresConnectionClose (s.parseHTTPRequest X w req st).1 := by
  unfold RPCServer.parseHTTPRequest
  cases hr : NewResponse X req.ID (s.handleRequest X req st).1.Result
      (s.handleRequest X req st).1.Error with
  | error err =>
    simp only [hr]
    exact Error_declares _ _ _ hw hc
  | ok resp =>
    simp only [hr]
    exact writeJSONWithStatus_declares X w resp StatusOK _ hw hc

/-- Every response of `handleJSON` (400, 405, 422, 500 or 200) goes out with
`Connection: close`. -/
theorem handleJSON_declares (X : Deps σ P) (s : RPCServer) (w : ResponseWriter) (r : Request)
    (st : World σ) (hw : w.wroteHeader = false) :
    DeclaresConnectionClose (s.handleJSON X w r st).1 := by
  have hc : ((w.header.Set "Connection" "close").Set "Content-Type" "application/json").Values
      "Connection" = ["close"] := by
    rw [Values_Set_of_ne _ _ _ _ (by decide), Values_Set_self]
  unfold RPCServer.handleJSON
  cases hb : r.Body with
  | error e => exact Error_declares _ _ _ hw hc
  | ok body =>
    cases hd : X.unmarshalMessage body with
    | error e =>
      simp only [hd]
      exact Error_declares _ _ _ hw hc
    | ok req =>
      simp only [hd]
      split
      · exact Error_declares _ _ _ hw hc
      · exact parseHTTPRequest_declares X s _ req st hw hc

theorem withRealIP_fields (X : Deps σ P) (r : Request) :
    (withRealIP X r).Header = r.Header ∧ (withRealIP X r).Method = r.Method ∧
      (withRealIP X r).URL = r.URL := by
  unfold withRealIP
  split <;> exact ⟨rfl, rfl, rfl⟩

theorem Authenticated_withRealIP (X : Deps σ P) (s : RPCServer) (r : Request) :
    Authenticated X s (withRealIP X r) ↔ Authenticated X s r := by
  unfold Authenticated
  rw [(withRealIP_fields X r).1]

theorem Unauthenticated_withRealIP (X : Deps σ P) (s : RPCServer) (r : Request) :
    Unauthenticated X s (withRealIP X r) ↔ Unauthenticated X s r := by
  unfold Unauthenticated
  rw [(withRealIP_fields X r).1]

theorem routePath_withRealIP (X : Deps σ P) (r : Request) :
    routePath (withRealIP X r) = routePath r := by
  unfold routePath
  rw [(withRealIP_fields X r).2.2]

/-- The router sends a `POST` on the path `/` to `handleJSON`. -/
theorem routeHTTP_post_root (X : Deps σ P) (s : RPCServer) (ws : Bool) (w : ResponseWriter)
    (r : Request) (st : World σ) (hm : r.Method = "POST") (hp : routePath r = "/") :
    s.routeHTTP X (mounted ws) w r st = s.handleJSON X w r st := by
  have hmem : r.Method ∈ methodMap := by
    rw [hm]
    decide
  unfold RPCServer.routeHTTP
  rw [if_neg (not_not.2 hmem)]
  simp [mounted, List.find?, hm, hp]

/-- The answers of the router itself carry the `Connection` values the writer
had and one of the codes 405 and 404. -/
theorem routeHTTP_unrouted (X : Deps σ P) (s : RPCServer) (routes : List Route)
    (w : ResponseWriter) (r : Request) (st : World σ) (hw : w.wroteHeader = false)
    (hno : r.Method ∉ methodMap ∨
      ∀ rt ∈ routes, ¬ (rt.pattern = routePath r ∧ rt.method = r.Method)) :
    ((s.routeHTTP X routes w r st).1.Code = StatusMethodNotAllowed ∨
      (s.routeHTTP X routes w r st).1.Code = StatusNotFound) ∧
    (s.routeHTTP X routes w r st).1.sent.Values "Connection" = w.header.Values "Connection" ∧
    (s.routeHTTP X routes w r st).2 = st := by
  have h405 : ((methodNotAllowedHandler w r st : ResponseWriter × World σ).1.Code
        = StatusMethodNotAllowed ∨
      (methodNotAllowedHandler w r st : ResponseWriter × World σ).1.Code = StatusNotFound) ∧
      (methodNotAllowedHandler w r st : ResponseWriter × World σ).1.sent.Values "Connection"
        = w.header.Values "Connection" ∧
      (methodNotAllowedHandler w r st : ResponseWriter × World σ).2 = st := by
    simp [methodNotAllowedHandler, ResponseWriter.Write, ResponseWriter.WriteHeader, hw]
  have h404 : ((NotFound w r st : ResponseWriter × World σ).1.Code = StatusMethodNotAllowed ∨
      (NotFound w r st : ResponseWriter × World σ).1.Code = StatusNotFound) ∧
      (NotFound w r st : ResponseWriter × World σ).1.sent.Values "Connection"
        = w.header.Values "Connection" ∧
      (NotFound w r st : ResponseWriter × World σ).2 = st := by
    refine ⟨Or.inr ?_, ?_, rfl⟩
    · simp only [NotFound]
      rw [Error_eq _ _ _ hw]
    · simp only [NotFound]
      exact Error_sent_Values _ _ _ _ hw (by decide) (by decide)
  unfold RPCServer.routeHTTP
  by_cases hmem : r.Method ∈ methodMap
  · rw [if_neg (not_not.2 hmem)]
    have hall : ∀ rt ∈ routes, ¬ (rt.pattern = routePath r ∧ rt.method = r.Method) := by
      rcases hno with hno | hno
      · exact absurd hmem hno
      · exact hno
    have hfind : routes.find? (fun rt => rt.pattern = routePath r ∧ rt.method = r.Method)
        = none := by
      rw [List.find?_eq_none]
      intro rt hrt
      simpa using hall rt hrt
    rw [hfind]
    dsimp only
    split
    · exact h405
    · exact h404
  · rw [if_pos hmem]
    exact h405

/-- C6 as the code has it: on the handler of the server (the middlewares of
`New`, then the routing), a request that `authMiddleware` lets through and that
is a `POST` on `/` is answered by `handleJSON`, and every response of
`handleJSON` (400, 405, 422, 500, 200) goes out with `Connection: close`; the
401 of `authMiddleware`, and the 405 or 404 of the router for a request that is
let through and has no route, go out with the `Connection` values the writer
had before, none is added. -/
theorem ServeHTTP_connection_close (X : Deps σ P) (s : RPCServer) (ws : Bool)
    (w : ResponseWriter) (r : Request) (st : World σ) (hw : w.wroteHeader = false) :
    (Authenticated X s r → r.Method = "POST" → routePath r = "/" →
      DeclaresConnectionClose (s.ServeHTTP X ws w r st).1) ∧
    (Unauthenticated X s r →
      (s.ServeHTTP X ws w r st).1.Code = StatusUnauthorized ∧
      (s.ServeHTTP X ws w r st).1.sent.Values "Connection" = w.header.Values "Connection") ∧
    (Authenticated X s r →
      (r.Method ∉ methodMap ∨
        ∀ rt ∈ mounted ws, ¬ (rt.pattern = routePath r ∧ rt.method = r.Method)) →
      ((s.ServeHTTP X ws w r st).1.Code = StatusMethodNotAllowed ∨
        (s.ServeHTTP X ws w r st).1.Code = StatusNotFound) ∧
      (s.ServeHTTP X ws w r st).1.sent.Values "Connection" = w.header.Values "Connection") := by
  have hS : s.ServeHTTP X ws w r st
      = s.authMiddleware X (s.routeHTTP X (mounted ws)) w (withRealIP X r) st := rfl
  obtain ⟨hH, hM, hU⟩ := withRealIP_fields X r
  refine ⟨?_, ?_, ?_⟩
  · intro ha hm hp
    obtain ⟨h, rest, hh, hd⟩ := (Authenticated_withRealIP X s r).2 ha
    rw [hS, authMiddleware_pass X s _ w _ st h rest hh hd,
      routeHTTP_post_root X s ws w _ _ (hM.trans hm) ((routePath_withRealIP X r).trans hp)]
    exact handleJSON_declares X s w _ _ hw
  · intro hrej
    have hw2 : ({ w with header := w.header.Add "WWW-Authenticate" "Basic realm=\"dex RPC\"" } :
        ResponseWriter).wroteHeader = false := hw
    rw [hS, authMiddleware_fail X s _ w _ st ((Unauthenticated_withRealIP X s r).2 hrej)]
    simp only [authFail]
    refine ⟨?_, ?_⟩
    · rw [Error_eq _ _ _ hw2]
    · rw [Error_sent_Values _ _ _ _ hw2 (by decide) (by decide)]
      exact Values_Add_of_ne _ _ _ _ (by decide)
  · intro ha hno
    obtain ⟨h, rest, hh, hd⟩ := (Authenticated_withRealIP X s r).2 ha
    have hno2 : (withRealIP X r).Method ∉ methodMap ∨
        ∀ rt ∈ mounted ws,
          ¬ (rt.pattern = routePath (withRealIP X r) ∧ rt.method = (withRealIP X r).Method) := by
      rw [hM, routePath_withRealIP]
      exact hno
    rw [hS, authMiddleware_pass X s _ w _ st h rest hh hd]
    obtain ⟨h1, h2, -⟩ := routeHTTP_unrouted X s (mounted ws) w (withRealIP X r)
      (st.logf .Debug ("authenticated user with ip: " ++ (withRealIP X r).RemoteAddr)) hw hno2
    exact ⟨h1, h2⟩

set_option maxRecDepth 100000 in
theorem ServeHTTP_connection_close_witness :
    Authenticated sampleDeps sampleServer sampleRequest ∧
    sampleRequest.Method = "POST" ∧ routePath sampleRequest = "/" ∧
    DeclaresConnectionClose
      (sampleServer.ServeHTTP sampleDeps true ResponseWriter.fresh sampleRequest emptyWorld).1 ∧
    (sampleServer.ServeHTTP sampleDeps true ResponseWriter.fresh sampleRequest emptyWorld).1.Code
      = 200 :=
  have h1 : Authenticated sampleDeps sampleServer sampleRequest :=
    ⟨"Basic dTpw", ["Basic x"], rfl, rfl⟩
  ⟨h1, rfl, rfl,
    (ServeHTTP_connection_close sampleDeps sampleServer true ResponseWriter.fresh sampleRequest
      emptyWorld rfl).1 h1 rfl rfl, by decide⟩

set_option maxRecDepth 100000 in
/-- C6 as stated fails: the 401 sent to a request without credentials, on a
fresh writer, carries no `Connection` header at all; nor does the 405 the
router sends to a `GET /` with the right credentials. -/
theorem unauthorized_without_connection_close :
    (sampleServer.ServeHTTP sampleDeps true ResponseWriter.fresh anonymousRequest
      emptyWorld).1.Code = 401 ∧
    (sampleServer.ServeHTTP sampleDeps true ResponseWriter.fresh anonymousRequest
      emptyWorld).1.sent
      = [("Www-Authenticate", ["Basic realm=\"dex RPC\""]),
         ("Content-Type", ["text/plain; charset=utf-8"]),
         ("X-Content-Type-Options", ["nosniff"])] ∧
    ¬ DeclaresConnectionClose
      (sampleServer.ServeHTTP sampleDeps true ResponseWriter.fresh anonymousRequest
        emptyWorld).1 ∧
    Authenticated sampleDeps sampleServer getRequest ∧
    (sampleServer.ServeHTTP sampleDeps true ResponseWriter.fresh getRequest emptyWorld).1.Code
      = 405 ∧
    (sampleServer.ServeHTTP sampleDeps true ResponseWriter.fresh getRequest emptyWorld).1.sent
      = [] ∧
    ¬ DeclaresConnectionClose
      (sampleServer.ServeHTTP sampleDeps true ResponseWriter.fresh getRequest emptyWorld).1 := by
  refine ⟨by decide, by decide, by decide, ⟨"Basic dTpw", ["Basic x"], rfl, rfl⟩, by decide,
    by decide, by decide⟩

/-! ### Dispatch -/

/-- C3: `handleRequest` answers an empty route with the code `RPCUnknownRoute`,
a route that is not in `routes` with the same code, and a registered route
whose parameters do not decode with `RPCParseError`; each time `Result` is
unset and no handler runs: the payload is fixed whatever the handlers are, and
the world only gains one debug line in the log. -/
theorem handleRequest_errors (X : Deps σ P) (s : RPCServer) (req : Message) (st : World σ) :
    (req.Route = "" →
      s.handleRequest X req st =
        ({ Result := none,
           Error := some { Code := X.RPCUnknownRoute, Message := "no route was supplied" } },
         st.logf .Debug "route not specified")) ∧
    (req.Route ≠ "" → X.routes req.Route = none →
      s.handleRequest X req st =
        ({ Result := none,
           Error := some { Code := X.RPCUnknownRoute, Message := "unknown command" } },
         st.logf .Debug ("unknown command: " ++ req.Route))) ∧
    (req.Route ≠ "" → ∀ (h : RouteHandler σ P) (e : String), X.routes req.Route = some h →
      X.unmarshalParams req.Payload = .error e →
      s.handleRequest X req st =
        ({ Result := none,
           Error := some { Code := X.RPCParseError, Message := "unable to unmarshal request" } },
         st.logf .Debug ("cannot unmarshal params for route " ++ req.Route))) := by
  refine ⟨?_, ?_, ?_⟩
  · intro h0
    simp [RPCServer.handleRequest, h0, NewError]
  · intro h0 hr
    simp [RPCServer.handleRequest, h0, hr, NewError, errUnknownCmd]
  · intro h0 h e hr hp
    simp [RPCServer.handleRequest, h0, hr, hp, NewError]

theorem handleRequest_errors_witness :
    sampleDeps.routes "nope" = none ∧
    sampleServer.handleRequest sampleDeps ⟨.Request, "nope", 1, "[]"⟩ emptyWorld =
      ({ Result := none, Error := some { Code := 2, Message := "unknown command" } },
       emptyWorld.logf .Debug "unknown command: nope") ∧
    sampleDeps.unmarshalParams "oops" = .error "cannot unmarshal" ∧
    sampleServer.handleRequest sampleDeps ⟨.Request, "version", 1, "oops"⟩ emptyWorld =
      ({ Result := none, Error := some { Code := 1, Message := "unable to unmarshal request" } },
       emptyWorld.logf .Debug "cannot unmarshal params for route version") :=
  have h := handleRequest_errors sampleDeps sampleServer ⟨.Request, "nope", 1, "[]"⟩ emptyWorld
  have h2 := handleRequest_errors sampleDeps sampleServer ⟨.Request, "version", 1, "oops"⟩ emptyWorld
  ⟨rfl, h.2.1 (by decide) rfl, rfl, h2.2.2 (by decide) handleVersion _ rfl rfl⟩

/-- A registered handler that is reached returns what the handler returns. -/
theorem handleRequest_dispatch (X : Deps σ P) (s : RPCServer) (req : Message) (st : World σ)
    (h : RouteHandler σ P) (params : P) (h0 : req.Route ≠ "")
    (hr : X.routes req.Route = some h) (hp : X.unmarshalParams req.Payload = .ok params) :
    s.handleRequest X req st = h s params st := by
  simp [RPCServer.handleRequest, h0, hr, hp]

/-- A registered handler is not reached when the parameters do not decode. -/
theorem handleRequest_parse_error (X : Deps σ P) (s : RPCServer) (req : Message) (st : World σ)
    (h : RouteHandler σ P) (e : String) (h0 : req.Route ≠ "")
    (hr : X.routes req.Route = some h) (hp : X.unmarshalParams req.Payload = .error e) :
    s.handleRequest X req st =
      ({ Result := none,
         Error := some { Code := X.RPCParseError, Message := "unable to unmarshal request" } },
       st.logf .Debug ("cannot unmarshal params for route " ++ req.Route)) := by
  simp [RPCServer.handleRequest, h0, hr, hp, NewError]

/-- What `parseHTTPRequest` writes when the response is encoded: status 200,
the JSON content type, and the bytes of the envelope. -/
theorem parseHTTPRequest_ok (X : Deps σ P) (s : RPCServer) (w : ResponseWriter)
    (req : Message) (st : World σ) (enc : RawMessage) (b : String)
    (hw : w.wroteHeader = false) (hid : req.ID ≠ 0)
    (henc : X.encodePayload (s.handleRequest X req st).1 = .ok enc)
    (hm : X.marshalMessage { Type_ := .Response, Route := "", ID := req.ID, Payload := enc }
      = .ok b) :
    s.parseHTTPRequest X w req st =
      ({ header := w.header.Set "Content-Type" "application/json; charset=utf-8",
         wroteHeader := true, Code := StatusOK,
         sent := w.header.Set "Content-Type" "application/json; charset=utf-8",
         body := w.body ++ b },
       (s.handleRequest X req st).2) := by
  simp [RPCServer.parseHTTPRequest, NewResponse, hid, henc, writeJSON, writeJSONWithStatus, hm,
    ResponseWriter.Write, ResponseWriter.WriteHeader, hw]

/-- C4 as the code has it: for a request envelope with a non-zero identifier
and a registered route, when the JSON encoding of the response succeeds,
`parseHTTPRequest` writes status 200 and the encoding of the response envelope
with the identifier of the request and, as payload, the payload the handler of
the route returned, unchanged (the world is the one the handler left); that
payload has exactly one of result and error set exactly when the handler
returned it so.  When the parameters do not decode, the payload is the parse
error alone, which has exactly one of the two set, and no handler runs. -/
theorem parseHTTPRequest_envelope (X : Deps σ P) (s : RPCServer) (w : ResponseWriter)
    (req : Message) (st : World σ) (h : RouteHandler σ P)
    (hw : w.wroteHeader = false) (hid : req.ID ≠ 0) (hroute : req.Route ≠ "")
    (hreg : X.routes req.Route = some h) :
    (∀ params enc b, X.unmarshalParams req.Payload = .ok params →
      X.encodePayload (h s params st).1 = .ok enc →
      X.marshalMessage { Type_ := .Response, Route := "", ID := req.ID, Payload := enc }
        = .ok b →
      s.parseHTTPRequest X w req st =
        ({ header := w.header.Set "Content-Type" "application/json; charset=utf-8",
           wroteHeader := true, Code := StatusOK,
           sent := w.header.Set "Content-Type" "application/json; charset=utf-8",
           body := w.body ++ b },
         (h s params st).2) ∧
      (s.handleRequest X req st).1 = (h s params st).1 ∧
      (ExactlyOne (s.handleRequest X req st).1 ↔ ExactlyOne (h s params st).1)) ∧
    (∀ e enc b, X.unmarshalParams req.Payload = .error e →
      X.encodePayload
          { Result := none,
            Error := some { Code := X.RPCParseError, Message := "unable to unmarshal request" } }
        = .ok enc →
      X.marshalMessage { Type_ := .Response, Route := "", ID := req.ID, Payload := enc }
        = .ok b →
      s.parseHTTPRequest X w req st =
        ({ header := w.header.Set "Content-Type" "application/json; charset=utf-8",
           wroteHeader := true, Code := StatusOK,
           sent := w.header.Set "Content-Type" "application/json; charset=utf-8",
           body := w.body ++ b },
         st.logf .Debug ("cannot unmarshal params for route " ++ req.Route)) ∧
      ExactlyOne
        { Result := none,
          Error := some { Code := X.RPCParseError, Message := "unable to unmarshal request" } }) := by
  constructor
  · intro params enc b hp henc hm
    have hd := handleRequest_dispatch X s req st h params hroute hreg hp
    have henc2 : X.encodePayload (s.handleRequest X req st).1 = .ok enc := by
      rw [hd]
      exact henc
    refine ⟨?_, by rw [hd], by rw [hd]⟩
    rw [parseHTTPRequest_ok X s w req st enc b hw hid henc2 hm, hd]
  · intro e enc b hp henc hm
    have hd := handleRequest_parse_error X s req st h e hroute hreg hp
    have henc2 : X.encodePayload (s.handleRequest X req st).1 = .ok enc := by
      rw [hd]
      exact henc
    refine ⟨?_, Or.inr ⟨rfl, by simp⟩⟩
    rw [parseHTTPRequest_ok X s w req st enc b hw hid henc2 hm, hd]

theorem parseHTTPRequest_envelope_witness :
    sampleDeps.routes "version" = some handleVersion ∧
    sampleDeps.unmarshalParams "[]" = .ok [] ∧
    sampleDeps.marshalMessage
        { Type_ := .Response, Route := "", ID := 7, Payload := "\"0.1.0\",null" }
      = .ok "7:\"0.1.0\",null" ∧
    sampleServer.parseHTTPRequest sampleDeps ResponseWriter.fresh
        ⟨.Request, "version", 7, "[]"⟩ emptyWorld =
      ({ header := [("Content-Type", ["application/json; charset=utf-8"])],
         wroteHeader := true, Code := 200,
         sent := [("Content-Type", ["application/json; charset=utf-8"])],
         body := "7:\"0.1.0\",null" },
       { emptyWorld with core := 1 }) :=
  ⟨rfl, rfl, rfl,
    ((parseHTTPRequest_envelope sampleDeps sampleServer ResponseWriter.fresh
      ⟨.Request, "version", 7, "[]"⟩ emptyWorld handleVersion rfl (by decide) (by decide)
      rfl).1 [] "\"0.1.0\",null" "7:\"0.1.0\",null" rfl rfl rfl).1⟩

/-- C4 as stated fails: a request envelope with the identifier 0 and a
registered route is dispatched (the handler runs), `msgjson.NewResponse`
refuses the identifier, and the answer is a 500 with the error text, no
response envelope. -/
theorem parseHTTPRequest_id_zero :
    sampleDeps.routes "version" = some handleVersion ∧
    sampleServer.parseHTTPRequest sampleDeps ResponseWriter.fresh
        ⟨.Request, "version", 0, "[]"⟩ emptyWorld =
      ({ header := [("Content-Type", ["text/plain; charset=utf-8"]),
                    ("X-Content-Type-Options", ["nosniff"])],
         wroteHeader := true, Code := 500,
         sent := [("Content-Type", ["text/plain; charset=utf-8"]),
                  ("X-Content-Type-Options", ["nosniff"])],
         body := "error encoding response: id = 0 not allowed for a response\n" },
       { emptyWorld with
         core := 1,
         log := [(.Error, "parseHTTPRequest: NewResponse failed: error encoding response: " ++
           "id = 0 not allowed for a response")] }) := by
  exact ⟨rfl, rfl⟩

/-- C5: when the body decodes to an envelope whose type is not `Request`,
`handleJSON` answers 405 "Responses not accepted" and leaves the world as it was
(no handler ran, nothing was logged), whatever `routes` holds; an envelope of
type `Request`, and only such a one, goes on to `parseHTTPRequest`. -/
theorem handleJSON_direction (X : Deps σ P) (s : RPCServer) (w : ResponseWriter) (r : Request)
    (st : World σ) (body : String) (req : Message)
    (hw : w.wroteHeader = false)
    (hb : r.Body = .ok body) (hd : X.unmarshalMessage body = .ok req) :
    (req.Type_ ≠ MessageType.Request →
      s.handleJSON X w r st =
        (Error
          { w with header :=
              (w.header.Set "Connection" "close").Set "Content-Type" "application/json" }
          "Responses not accepted" StatusMethodNotAllowed, st) ∧
      (s.handleJSON X w r st).1.Code = StatusMethodNotAllowed ∧
      (s.handleJSON X w r st).1.body = w.body ++ "Responses not accepted\n") ∧
    (req.Type_ = MessageType.Request →
      s.handleJSON X w r st =
        s.parseHTTPRequest X
          { w with header :=
              (w.header.Set "Connection" "close").Set "Content-Type" "application/json" }
          req st) := by
  have hw2 : ({ w with header :=
      (w.header.Set "Connection" "close").Set "Content-Type" "application/json" } :
      ResponseWriter).wroteHeader = false := hw
  constructor
  · intro ht
    have hE := Error_eq _ "Responses not accepted" StatusMethodNotAllowed hw2
    have hJ : s.handleJSON X w r st =
        (Error
          { w with header :=
              (w.header.Set "Connection" "close").Set "Content-Type" "application/json" }
          "Responses not accepted" StatusMethodNotAllowed, st) := by
      simp only [RPCServer.handleJSON, hb, hd, ht, ne_eq, not_false_eq_true, if_true]
    refine ⟨hJ, ?_, ?_⟩
    · rw [hJ, hE]
    · rw [hJ, hE]
      rfl
  · intro ht
    simp [RPCServer.handleJSON, hb, hd, ht]

theorem handleJSON_direction_witness :
    sampleDeps.unmarshalMessage "response" = .ok ⟨.Response, "", 1, "null"⟩ ∧
    (sampleServer.handleJSON sampleDeps ResponseWriter.fresh
      { sampleRequest with Body := .ok "response" } emptyWorld).1.Code = 405 ∧
    (sampleServer.handleJSON sampleDeps ResponseWriter.fresh
      { sampleRequest with Body := .ok "response" } emptyWorld).1.body
        = "" ++ "Responses not accepted\n" ∧
    (sampleServer.handleJSON sampleDeps ResponseWriter.fresh
      { sampleRequest with Body := .ok "response" } emptyWorld).2 = emptyWorld :=
  have h := (handleJSON_direction sampleDeps sampleServer ResponseWriter.fresh
    { sampleRequest with Body := .ok "response" } emptyWorld "response"
    ⟨.Response, "", 1, "null"⟩ rfl rfl rfl).1 (by decide)
  ⟨rfl, h.2.1, h.2.2, congrArg Prod.snd h.1⟩

/-! ### The TLS identity on disk -/

theorem fileExists_false_iff (name : String) (st : World σ) :
    (fileExists name st).1 = false ↔ name ∉ st.fs.denied ∧ List.lookup name st.fs.files = none := by
  simp only [fileExists, World.call, FS.Stat]
  by_cases hd : name ∈ st.fs.denied
  · simp [hd]
  · by_cases hs : (List.lookup name st.fs.files).isSome = true
    · have hne : List.lookup name st.fs.files ≠ none := by
        intro h0
        rw [h0] at hs
        exact absurd hs (by decide)
      simp [hd, hs, hne]
    · have hnone : List.lookup name st.fs.files = none := by
        cases hl : List.lookup name st.fs.files with
        | none => rfl
        | some f =>
          rw [hl] at hs
          exact absurd rfl hs
      simp [hd, hs, hnone]

theorem fileExists_true_of_lookup (name : String) (st : World σ) (f : File)
    (h : List.lookup name st.fs.files = some f) : (fileExists name st).1 = true := by
  cases hb : (fileExists name st).1 with
  | true => rfl
  | false =>
    have := ((fileExists_false_iff name st).1 hb).2
    rw [h] at this
    exact absurd this (by simp)

theorem filter_assign_of_lookup_none {β : Type} (m : List (String × β)) (name : String) (v : β)
    (h : List.lookup name m = none) :
    (assign m name v).filter (fun e => decide (e.1 ≠ name)) = m := by
  induction m with
  | nil =>
    have hp : decide ((name, v).1 ≠ name) = false := by simp
    rw [assign, List.filter_cons_of_neg (by simp)]
    rfl
  | cons e t ih =>
    obtain ⟨k, b⟩ := e
    by_cases hk : name = k
    · subst hk
      simp [List.lookup] at h
    · have hk2 : (name == k) = false := by simpa using hk
      have hk3 : k ≠ name := fun h3 => hk h3.symm
      simp only [List.lookup, hk2] at h
      rw [assign, if_neg hk3, List.filter_cons_of_pos (by simpa using hk3), ih h]

theorem lookup_filter_self {β : Type} (m : List (String × β)) (name : String) :
    List.lookup name (m.filter (fun e => decide (e.1 ≠ name))) = none := by
  rw [List.lookup_eq_none_iff]
  intro p hp
  have h2 := (List.mem_filter.1 hp).2
  have h3 : p.1 ≠ name := by simpa using h2
  simpa using fun h4 : name = p.1 => h3 h4.symm

/-! The four ways through `genCertPair`. -/

theorem genCertPair_gen_error (X : Deps σ P) (certFile keyFile : String) (hosts : List String)
    (st : World σ) (err : String)
    (hg : X.NewTLSCertPair "P-521" "dcrdex autogenerated cert" (st.now + 10 * 365 * 24 * Hour)
      hosts = .error err) :
    genCertPair X certFile keyFile hosts st
      = (some err, st.logf .Info "Generating TLS certificates...") := by
  simp only [genCertPair, World.logf, hg]

theorem genCertPair_cert_error (X : Deps σ P) (certFile keyFile : String) (hosts : List String)
    (st : World σ) (cert key : String) (f : WriteFailure)
    (hg : X.NewTLSCertPair "P-521" "dcrdex autogenerated cert" (st.now + 10 * 365 * 24 * Hour)
      hosts = .ok (cert, key))
    (hw1 : X.writeFileErr st.fs certFile cert = some f) :
    genCertPair X certFile keyFile hosts st
      = (some f.err,
         ({ st.logf .Info "Generating TLS certificates..." with
              fs := f.after st.fs certFile 0o644 } : World σ).call (.write certFile false)) := by
  simp only [genCertPair, World.logf, hg, WriteFile, hw1]

theorem genCertPair_key_error (X : Deps σ P) (certFile keyFile : String) (hosts : List String)
    (st : World σ) (cert key : String) (f : WriteFailure)
    (hg : X.NewTLSCertPair "P-521" "dcrdex autogenerated cert" (st.now + 10 * 365 * 24 * Hour)
      hosts = .ok (cert, key))
    (hw1 : X.writeFileErr st.fs certFile cert = none)
    (hw2 : X.writeFileErr (st.fs.put certFile cert 0o644) keyFile key = some f) :
    genCertPair X certFile keyFile hosts st
      = (some f.err,
         Remove X certFile
          ((({ st.logf .Info "Generating TLS certificates..." with
                fs := f.after (st.fs.put certFile cert 0o644) keyFile 0o600 } : World σ).call
              (.write certFile true)).call (.write keyFile false))) := by
  simp only [genCertPair, World.logf, hg, WriteFile, hw1, World.call, hw2]

theorem genCertPair_ok (X : Deps σ P) (certFile keyFile : String) (hosts : List String)
    (st : World σ) (cert key : String)
    (hg : X.NewTLSCertPair "P-521" "dcrdex autogenerated cert" (st.now + 10 * 365 * 24 * Hour)
      hosts = .ok (cert, key))
    (hw1 : X.writeFileErr st.fs certFile cert = none)
    (hw2 : X.writeFileErr (st.fs.put certFile cert 0o644) keyFile key = none) :
    genCertPair X certFile keyFile hosts st
      = (none,
         { core := st.core,
           fs := (st.fs.put certFile cert 0o644).put keyFile key 0o600,
           now := st.now,
           log := st.log ++ [(.Info, "Generating TLS certificates...")]
                    ++ [(.Info, "Done generating TLS certificates")],
           calls := st.calls ++ [.write certFile true] ++ [.write keyFile true] }) := by
  simp only [genCertPair, World.logf, hg, WriteFile, hw1, World.call, hw2]

/-- What `genCertPair` does when a write fails.  When the certificate is written
and the write of the key fails, `os.Remove` is called on the certificate before
the error is returned, and when that removal succeeds no file is left at the
path of the certificate.  When the write of the certificate fails, the error is
returned at once: that write is the only file-system call, the key is not
written, and what the failed write left at the path of the certificate stays. -/
theorem genCertPair_failure_paths (X : Deps σ P) (certFile keyFile : String)
    (hosts : List String) (st : World σ) (cert key : String) (f : WriteFailure)
    (hg : X.NewTLSCertPair "P-521" "dcrdex autogenerated cert" (st.now + 10 * 365 * 24 * Hour)
      hosts = .ok (cert, key)) :
    (X.writeFileErr st.fs certFile cert = none →
      X.writeFileErr (st.fs.put certFile cert 0o644) keyFile key = some f →
      (genCertPair X certFile keyFile hosts st).1 = some f.err ∧
      (∃ ok, (genCertPair X certFile keyFile hosts st).2.calls
        = st.calls ++ [.write certFile true, .write keyFile false, .remove certFile ok]) ∧
      (X.removeErr (f.after (st.fs.put certFile cert 0o644) keyFile 0o600) certFile = none →
        (genCertPair X certFile keyFile hosts st).2.fs.present certFile = false)) ∧
    (X.writeFileErr st.fs certFile cert = some f →
      (genCertPair X certFile keyFile hosts st).1 = some f.err ∧
      (genCertPair X certFile keyFile hosts st).2.calls = st.calls ++ [.write certFile false] ∧
      (genCertPair X certFile keyFile hosts st).2.fs = f.after st.fs certFile 0o644) := by
  constructor
  · intro hw1 hw2
    rw [genCertPair_key_error X certFile keyFile hosts st cert key f hg hw1 hw2]
    refine ⟨rfl, ?_, ?_⟩
    · unfold Remove
      cases hr : X.removeErr (f.after (st.fs.put certFile cert 0o644) keyFile 0o600) certFile with
      | some e =>
        refine ⟨false, ?_⟩
        simp [World.call, World.logf, hr]
      | none =>
        refine ⟨true, ?_⟩
        simp [World.call, World.logf, hr]
    · intro hr
      simp only [Remove, World.call, World.logf, hr, FS.present]
      rw [lookup_filter_self]
      rfl
  · intro hw1
    rw [genCertPair_cert_error X certFile keyFile hosts st cert key f hg hw1]
    exact ⟨rfl, rfl, rfl⟩

/-- C9, the failing run: on a full disk, with neither file present, the write of
the certificate fails after the file is created.  `genCertPair` returns the
error at once, and leaves an empty file at the path of the certificate and no
key: `fileExists` now reports the certificate and not the key, and every later
`New` with these paths ends in "missing cert pair file". -/
theorem genCertPair_leaves_certificate :
    (fileExists "rpc.cert" emptyWorld).1 = false ∧
    (fileExists "rpc.key" emptyWorld).1 = false ∧
    genCertPair diskFullDeps "rpc.cert" "rpc.key" ["localhost"] emptyWorld =
      (some "write rpc.cert: no space left on device",
       { emptyWorld with
         fs := { files := [("rpc.cert", ⟨"", 0o644⟩)], denied := [] },
         log := [(.Info, "Generating TLS certificates...")],
         calls := [.write "rpc.cert" false] }) ∧
    (fileExists "rpc.cert"
      (genCertPair diskFullDeps "rpc.cert" "rpc.key" ["localhost"] emptyWorld).2).1 = true ∧
    (fileExists "rpc.key"
      (genCertPair diskFullDeps "rpc.cert" "rpc.key" ["localhost"] emptyWorld).2).1 = false ∧
    (New diskFullDeps sampleConfig emptyWorld).1
      = .error "write rpc.cert: no space left on device" ∧
    (New sampleDeps sampleConfig (New diskFullDeps sampleConfig emptyWorld).2).1
      = .error "missing cert pair file" := by
  exact ⟨rfl, rfl, rfl, rfl, rfl, rfl, rfl⟩

theorem ReadFile_absent (name : String) (st : World σ)
    (h : List.lookup name st.fs.files = none) :
    ∃ err, ReadFile name st = (.error err, st.call (.read name)) := by
  unfold ReadFile
  by_cases hd : name ∈ st.fs.denied
  · exact ⟨"open " ++ name ++ ": permission denied", by simp [World.call, hd]⟩
  · exact ⟨"open " ++ name ++ ": no such file or directory", by simp [World.call, hd, h]⟩

theorem ReadFile_shape (name : String) (st : World σ) :
    (ReadFile name st).2 = st.call (.read name) := by
  unfold ReadFile
  by_cases hd : name ∈ st.fs.denied
  · simp [World.call, hd]
  · cases hl : List.lookup name st.fs.files <;> simp [World.call, hd, hl]

/-- The shape of `New` when the two files are reported present: nothing is generated, the
pair is loaded. -/
theorem New_of_both_exist (X : Deps σ P) (cfg : Config) (st : World σ)
    (hp : cfg.Pass ≠ "")
    (hc : (fileExists cfg.Cert st).1 = true) (hk : (fileExists cfg.Key st).1 = true) :
    New X cfg st =
      match LoadX509KeyPair X cfg.Cert cfg.Key ((st.call (.stat cfg.Key)).call (.stat cfg.Cert)) with
      | (.error err, st2) => (.error err, st2)
      | (.ok keypair, st2) =>
        (.ok { addr := cfg.Addr,
               tlsConfig := { Certificates := [keypair], MinVersion := VersionTLS12 },
               srv := { ReadTimeout := rpcTimeoutSeconds, WriteTimeout := rpcTimeoutSeconds },
               authSHA := X.Sum256 ("Basic " ++ X.EncodeToString (cfg.User ++ ":" ++ cfg.Pass)) },
         st2) := by
  have hc2 : (fileExists cfg.Cert (fileExists cfg.Key st).2).1 = true := hc
  unfold New
  rw [if_neg hp]
  simp only [hk, hc2]
  simp only [Bool.not_true, Bool.and_self, Bool.false_eq_true, if_false]
  rfl

/-- The shape of `New` when neither file is reported present: `genCertPair` runs first. -/
theorem New_of_neither_exist (X : Deps σ P) (cfg : Config) (st : World σ)
    (hp : cfg.Pass ≠ "")
    (hc : (fileExists cfg.Cert st).1 = false) (hk : (fileExists cfg.Key st).1 = false) :
    New X cfg st =
      match genCertPair X cfg.Cert cfg.Key cfg.CertHosts
          ((st.call (.stat cfg.Key)).call (.stat cfg.Cert)) with
      | (some err, st2) => (.error err, st2)
      | (none, st2) =>
        match LoadX509KeyPair X cfg.Cert cfg.Key st2 with
        | (.error err, st3) => (.error err, st3)
        | (.ok keypair, st3) =>
          (.ok { addr := cfg.Addr,
                 tlsConfig := { Certificates := [keypair], MinVersion := VersionTLS12 },
                 srv := { ReadTimeout := rpcTimeoutSeconds, WriteTimeout := rpcTimeoutSeconds },
                 authSHA := X.Sum256 ("Basic " ++ X.EncodeToString (cfg.User ++ ":" ++ cfg.Pass)) },
           st3) := by
  have hc2 : (fileExists cfg.Cert (fileExists cfg.Key st).2).1 = false := hc
  unfold New
  rw [if_neg hp]
  simp only [hk, hc2]
  simp only [Bool.not_false, Bool.and_self, Bool.false_eq_true, if_false, if_true]
  rfl

theorem New_of_mismatch (X : Deps σ P) (cfg : Config) (st : World σ)
    (hp : cfg.Pass ≠ "")
    (hne : (fileExists cfg.Cert st).1 ≠ (fileExists cfg.Key st).1) :
    New X cfg st
      = (.error "missing cert pair file", (st.call (.stat cfg.Key)).call (.stat cfg.Cert)) := by
  have hc2 : (fileExists cfg.Cert (fileExists cfg.Key st).2).1 = (fileExists cfg.Cert st).1 := rfl
  have hm : (fileExists cfg.Cert st).1 = !(fileExists cfg.Key st).1 := by
    cases h1 : (fileExists cfg.Cert st).1 <;> cases h2 : (fileExists cfg.Key st).1 <;>
      simp_all
  unfold New
  rw [if_neg hp]
  simp only [hc2, hm, if_true]
  rfl

theorem LoadX509KeyPair_frame (X : Deps σ P) (certFile keyFile : String) (st : World σ) :
    (LoadX509KeyPair X certFile keyFile st).2.fs = st.fs ∧
    (LoadX509KeyPair X certFile keyFile st).2.log = st.log ∧
    ∀ c ∈ (LoadX509KeyPair X certFile keyFile st).2.calls,
      c ∈ st.calls ∨ (∃ n, c = .stat n) ∨ ∃ n, c = .read n := by
  unfold LoadX509KeyPair
  have h1 := ReadFile_shape certFile st
  cases hr1 : ReadFile certFile st with
  | mk r1 st1 =>
    rw [hr1] at h1
    simp only at h1
    subst h1
    cases r1 with
    | error e =>
      refine ⟨rfl, rfl, ?_⟩
      intro c hc
      simp only [World.call, List.mem_append, List.mem_singleton] at hc
      rcases hc with hc | hc
      · exact Or.inl hc
      · exact Or.inr (Or.inr ⟨_, hc⟩)
    | ok d1 =>
      have h2 := ReadFile_shape keyFile (st.call (.read certFile))
      dsimp only
      cases hr2 : ReadFile keyFile (st.call (.read certFile)) with
      | mk r2 st2 =>
        rw [hr2] at h2
        simp only at h2
        subst h2
        have hcalls : ∀ c ∈ ((st.call (.read certFile)).call (.read keyFile)).calls,
            c ∈ st.calls ∨ (∃ n, c = SysCall.stat n) ∨ ∃ n, c = SysCall.read n := by
          intro c hc
          simp only [World.call, List.mem_append, List.mem_singleton] at hc
          rcases hc with (hc | hc) | hc
          · exact Or.inl hc
          · exact Or.inr (Or.inr ⟨_, hc⟩)
          · exact Or.inr (Or.inr ⟨_, hc⟩)
        cases r2 with
        | error e => exact ⟨rfl, rfl, hcalls⟩
        | ok d2 => exact ⟨rfl, rfl, hcalls⟩

theorem LoadX509KeyPair_absent (X : Deps σ P) (certFile keyFile : String) (st : World σ)
    (h : List.lookup certFile st.fs.files = none ∨ List.lookup keyFile st.fs.files = none) :
    ∃ err, (LoadX509KeyPair X certFile keyFile st).1 = .error err := by
  unfold LoadX509KeyPair
  cases hr1 : ReadFile certFile st with
  | mk r1 st1 =>
    cases r1 with
    | error e => exact ⟨e, rfl⟩
    | ok d1 =>
      have hs1 : st1 = st.call (.read certFile) := by
        have := ReadFile_shape certFile st
        rw [hr1] at this
        exact this
      subst hs1
      rcases h with h | h
      · obtain ⟨err, he⟩ := ReadFile_absent certFile st h
        rw [he] at hr1
        simp at hr1
      · obtain ⟨err, he⟩ := ReadFile_absent keyFile (st.call (.read certFile)) h
        simp only [he]
        exact ⟨err, rfl⟩

theorem LoadX509KeyPair_present (X : Deps σ P) (certFile keyFile : String) (st : World σ)
    (fc fk : File) (hdc : certFile ∉ st.fs.denied) (hdk : keyFile ∉ st.fs.denied)
    (hlc : List.lookup certFile st.fs.files = some fc)
    (hlk : List.lookup keyFile st.fs.files = some fk) :
    LoadX509KeyPair X certFile keyFile st
      = (X.X509KeyPair fc.data fk.data, (st.call (.read certFile)).call (.read keyFile)) := by
  simp [LoadX509KeyPair, ReadFile, World.call, hdc, hdk, hlc, hlk]

/-- C7: `New` returns an error and no server when `Pass` is empty, and when
`fileExists` reports exactly one of the certificate and the key, whichever of
the two it is (third part: also when exactly one of the two is a file on
disk); each time the file system and the log are as before: nothing was
generated and no file-system call other than `os.Stat` and a read was made. -/
theorem New_refuses (X : Deps σ P) (cfg : Config) (st : World σ) :
    (cfg.Pass = "" → New X cfg st = (.error "missing RPC password", st)) ∧
    (cfg.Pass ≠ "" →
      ((fileExists cfg.Cert st).1 = true ∧ (fileExists cfg.Key st).1 = false) ∨
        ((fileExists cfg.Cert st).1 = false ∧ (fileExists cfg.Key st).1 = true) →
      New X cfg st
        = (.error "missing cert pair file", (st.call (.stat cfg.Key)).call (.stat cfg.Cert))) ∧
    (cfg.Pass = "" ∨ st.fs.present cfg.Cert ≠ st.fs.present cfg.Key →
      (∃ err, (New X cfg st).1 = .error err) ∧
      (New X cfg st).2.fs = st.fs ∧ (New X cfg st).2.log = st.log ∧
      ∀ c ∈ (New X cfg st).2.calls, c ∈ st.calls ∨ (∃ n, c = .stat n) ∨ ∃ n, c = .read n) := by
  have hfirst : cfg.Pass = "" → New X cfg st = (.error "missing RPC password", st) := by
    intro hp
    unfold New
    rw [if_pos hp]
  have hstat : ∀ c ∈ ((st.call (.stat cfg.Key)).call (.stat cfg.Cert)).calls,
      c ∈ st.calls ∨ (∃ n, c = SysCall.stat n) ∨ ∃ n, c = SysCall.read n := by
    intro c hc
    simp only [World.call, List.mem_append, List.mem_singleton] at hc
    rcases hc with (hc | hc) | hc
    · exact Or.inl hc
    · exact Or.inr (Or.inl ⟨_, hc⟩)
    · exact Or.inr (Or.inl ⟨_, hc⟩)
  refine ⟨hfirst, ?_, ?_⟩
  · intro hp hone
    apply New_of_mismatch X cfg st hp
    rcases hone with ⟨h1, h2⟩ | ⟨h1, h2⟩ <;> rw [h1, h2] <;> decide
  · intro hbad
    by_cases hp : cfg.Pass = ""
    · rw [hfirst hp]
      exact ⟨⟨_, rfl⟩, rfl, rfl, fun c hc => Or.inl hc⟩
    · have hpres : st.fs.present cfg.Cert ≠ st.fs.present cfg.Key := by
        rcases hbad with hbad | hbad
        · exact absurd hbad hp
        · exact hbad
      by_cases hne : (fileExists cfg.Cert st).1 = (fileExists cfg.Key st).1
      · cases hk : (fileExists cfg.Key st).1 with
        | false =>
          have hc : (fileExists cfg.Cert st).1 = false := by rw [hne, hk]
          have h1 := ((fileExists_false_iff cfg.Cert st).1 hc).2
          have h2 := ((fileExists_false_iff cfg.Key st).1 hk).2
          exact absurd (by simp [FS.present, h1, h2]) hpres
        | true =>
          have hc : (fileExists cfg.Cert st).1 = true := by rw [hne, hk]
          have habs : List.lookup cfg.Cert st.fs.files = none ∨
              List.lookup cfg.Key st.fs.files = none := by
            cases h1 : List.lookup cfg.Cert st.fs.files with
            | none => exact Or.inl rfl
            | some f1 =>
              cases h2 : List.lookup cfg.Key st.fs.files with
              | none => exact Or.inr rfl
              | some f2 => exact absurd (by simp [FS.present, h1, h2]) hpres
          obtain ⟨err, herr⟩ := LoadX509KeyPair_absent X cfg.Cert cfg.Key
            ((st.call (.stat cfg.Key)).call (.stat cfg.Cert)) habs
          obtain ⟨hf1, hf2, hf3⟩ := LoadX509KeyPair_frame X cfg.Cert cfg.Key
            ((st.call (.stat cfg.Key)).call (.stat cfg.Cert))
          rw [New_of_both_exist X cfg st hp hc hk]
          cases hL : LoadX509KeyPair X cfg.Cert cfg.Key
              ((st.call (.stat cfg.Key)).call (.stat cfg.Cert)) with
          | mk r st2 =>
            rw [hL] at herr hf1 hf2 hf3
            simp only at herr hf1 hf2 hf3
            subst herr
            refine ⟨⟨err, rfl⟩, hf1, hf2, ?_⟩
            intro c hc
            rcases hf3 c hc with h | h
            · exact hstat c h
            · exact Or.inr h
      · rw [New_of_mismatch X cfg st hp hne]
        exact ⟨⟨_, rfl⟩, rfl, rfl, hstat⟩

theorem New_refuses_witness :
    (fileExists "rpc.cert" certOnlyWorld).1 = true ∧
    (fileExists "rpc.key" certOnlyWorld).1 = false ∧
    New sampleDeps sampleConfig certOnlyWorld
      = (.error "missing cert pair file",
         { certOnlyWorld with calls := [.stat "rpc.key", .stat "rpc.cert"] }) ∧
    New sampleDeps { sampleConfig with Pass := "" } emptyWorld
      = (.error "missing RPC password", emptyWorld) :=
  ⟨rfl, rfl,
    (New_refuses sampleDeps sampleConfig certOnlyWorld).2.1 (by decide) (Or.inl ⟨rfl, rfl⟩),
    (New_refuses sampleDeps { sampleConfig with Pass := "" } emptyWorld).1 rfl⟩

theorem lookup_put_self (fs : FS) (name data : String) (perm : Nat) :
    ∃ f, List.lookup name (fs.put name data perm).files = some f := by
  unfold FS.put
  cases List.lookup name fs.files with
  | none => exact ⟨_, lookup_assign_self _ _ _⟩
  | some f => exact ⟨_, lookup_assign_self _ _ _⟩

theorem lookup_put_some (fs : FS) (name name2 data : String) (perm : Nat)
    (h : ∃ f, List.lookup name2 fs.files = some f) :
    ∃ f, List.lookup name2 (fs.put name data perm).files = some f := by
  by_cases hn : name2 = name
  · subst hn
    exact lookup_put_self fs name2 data perm
  · obtain ⟨f, hf⟩ := h
    refine ⟨f, ?_⟩
    unfold FS.put
    cases List.lookup name fs.files with
    | none => simpa [lookup_assign_of_ne _ _ _ _ hn] using hf
    | some g => simpa [lookup_assign_of_ne _ _ _ _ hn] using hf

theorem denied_put (fs : FS) (name data : String) (perm : Nat) :
    (fs.put name data perm).denied = fs.denied := by
  unfold FS.put
  cases List.lookup name fs.files <;> rfl

/-- C8: when `fileExists` reports neither file and `New` succeeds, that first
call generated a pair and wrote both files (certificate, then key); a second
`New` with the same configuration, in the world the first one left, succeeds
with the same server and changes neither the file system nor the log: its only
file-system calls are the two `os.Stat` and the two reads, so `genCertPair`
(which logs and writes) did not run. -/
theorem New_idempotent (X : Deps σ P) (cfg : Config) (st : World σ) (s1 : RPCServer)
    (hc : (fileExists cfg.Cert st).1 = false) (hk : (fileExists cfg.Key st).1 = false)
    (h1 : (New X cfg st).1 = .ok s1) :
    (∃ cert key,
      X.NewTLSCertPair "P-521" "dcrdex autogenerated cert" (st.now + 10 * 365 * 24 * Hour)
        cfg.CertHosts = .ok (cert, key) ∧
      (New X cfg st).2.fs = (st.fs.put cfg.Cert cert 0o644).put cfg.Key key 0o600) ∧
    (New X cfg st).2.calls
      = st.calls ++ [.stat cfg.Key, .stat cfg.Cert, .write cfg.Cert true, .write cfg.Key true,
                     .read cfg.Cert, .read cfg.Key] ∧
    (New X cfg st).2.log
      = st.log ++ [(.Info, "Generating TLS certificates..."),
                   (.Info, "Done generating TLS certificates")] ∧
    (fileExists cfg.Cert (New X cfg st).2).1 = true ∧
    (fileExists cfg.Key (New X cfg st).2).1 = true ∧
    New X cfg (New X cfg st).2
      = (.ok s1,
         { (New X cfg st).2 with
           calls := (New X cfg st).2.calls ++
             [.stat cfg.Key, .stat cfg.Cert, .read cfg.Cert, .read cfg.Key] }) := by
  have hp : cfg.Pass ≠ "" := by
    intro hp
    have h0 : New X cfg st = (.error "missing RPC password", st) := by
      unfold New
      rw [if_pos hp]
    rw [h0] at h1
    simp at h1
  obtain ⟨hdc, hnc⟩ := (fileExists_false_iff cfg.Cert st).1 hc
  obtain ⟨hdk, hnk⟩ := (fileExists_false_iff cfg.Key st).1 hk
  have hN := New_of_neither_exist X cfg st hp hc hk
  cases hg : X.NewTLSCertPair "P-521" "dcrdex autogenerated cert"
      (st.now + 10 * 365 * 24 * Hour) cfg.CertHosts with
  | error e =>
    rw [genCertPair_gen_error X cfg.Cert cfg.Key cfg.CertHosts
      ((st.call (.stat cfg.Key)).call (.stat cfg.Cert)) e hg] at hN
    rw [hN] at h1
    simp at h1
  | ok ck =>
    obtain ⟨cert, key⟩ := ck
    cases hw1 : X.writeFileErr st.fs cfg.Cert cert with
    | some f =>
      rw [genCertPair_cert_error X cfg.Cert cfg.Key cfg.CertHosts
        ((st.call (.stat cfg.Key)).call (.stat cfg.Cert)) cert key f hg hw1] at hN
      rw [hN] at h1
      simp at h1
    | none =>
      cases hw2 : X.writeFileErr (st.fs.put cfg.Cert cert 0o644) cfg.Key key with
      | some f =>
        rw [genCertPair_key_error X cfg.Cert cfg.Key cfg.CertHosts
          ((st.call (.stat cfg.Key)).call (.stat cfg.Cert)) cert key f hg hw1 hw2] at hN
        rw [hN] at h1
        simp at h1
      | none =>
        rw [genCertPair_ok X cfg.Cert cfg.Key cfg.CertHosts
          ((st.call (.stat cfg.Key)).call (.stat cfg.Cert)) cert key hg hw1 hw2] at hN
        obtain ⟨fk, hfk⟩ := lookup_put_self (st.fs.put cfg.Cert cert 0o644) cfg.Key key 0o600
        obtain ⟨fc, hfc⟩ := lookup_put_some (st.fs.put cfg.Cert cert 0o644) cfg.Key cfg.Cert key
          0o600 (lookup_put_self st.fs cfg.Cert cert 0o644)
        have hden : ((st.fs.put cfg.Cert cert 0o644).put cfg.Key key 0o600).denied = st.fs.denied := by
          rw [denied_put, denied_put]
        have hdc2 : cfg.Cert ∉ ((st.fs.put cfg.Cert cert 0o644).put cfg.Key key 0o600).denied := by
          rw [hden]
          exact hdc
        have hdk2 : cfg.Key ∉ ((st.fs.put cfg.Cert cert 0o644).put cfg.Key key 0o600).denied := by
          rw [hden]
          exact hdk
        simp only at hN
        rw [LoadX509KeyPair_present X cfg.Cert cfg.Key _ fc fk hdc2 hdk2 hfc hfk] at hN
        cases hx : X.X509KeyPair fc.data fk.data with
        | error e =>
          rw [hx] at hN
          rw [hN] at h1
          simp at h1
        | ok kp =>
          rw [hx] at hN
          simp only at hN
          rw [hN] at h1
          simp only [Except.ok.injEq] at h1
          rw [h1] at hN
          have hc4 : (fileExists cfg.Cert (New X cfg st).2).1 = true := by
            rw [hN]
            exact fileExists_true_of_lookup _ _ fc hfc
          have hk4 : (fileExists cfg.Key (New X cfg st).2).1 = true := by
            rw [hN]
            exact fileExists_true_of_lookup _ _ fk hfk
          refine ⟨⟨cert, key, rfl, ?_⟩, ?_, ?_, hc4, hk4, ?_⟩
          · rw [hN]
            rfl
          · rw [hN]
            simp [World.call]
          · rw [hN]
            simp [World.call]
          · rw [New_of_both_exist X cfg _ hp hc4 hk4]
            rw [hN]
            rw [LoadX509KeyPair_present X cfg.Cert cfg.Key _ fc fk hdc2 hdk2 hfc hfk, hx]
            simp only [h1]
            simp [World.call]

theorem New_idempotent_witness :
    (fileExists "rpc.cert" emptyWorld).1 = false ∧
    (fileExists "rpc.key" emptyWorld).1 = false ∧
    (New sampleDeps sampleConfig emptyWorld).2.fs.files
      = [("rpc.cert", ⟨"CERTIFICATE dcrdex autogenerated cert", 0o644⟩),
         ("rpc.key", ⟨"EC PRIVATE KEY", 0o600⟩)] ∧
    (New sampleDeps sampleConfig (New sampleDeps sampleConfig emptyWorld).2).1
      = (New sampleDeps sampleConfig emptyWorld).1 ∧
    (New sampleDeps sampleConfig (New sampleDeps sampleConfig emptyWorld).2).2.fs
      = (New sampleDeps sampleConfig emptyWorld).2.fs ∧
    (New sampleDeps sampleConfig (New sampleDeps sampleConfig emptyWorld).2).2.calls
      = [.stat "rpc.key", .stat "rpc.cert", .write "rpc.cert" true, .write "rpc.key" true,
         .read "rpc.cert", .read "rpc.key",
         .stat "rpc.key", .stat "rpc.cert", .read "rpc.cert", .read "rpc.key"] :=
  have h := New_idempotent sampleDeps sampleConfig emptyWorld
    { addr := "127.0.0.1:5757",
      tlsConfig := { Certificates := [⟨"CERTIFICATE dcrdex autogenerated cert", "EC PRIVATE KEY"⟩],
                     MinVersion := VersionTLS12 },
      srv := { ReadTimeout := 10, WriteTimeout := 10 },
      authSHA := sampleDeps.Sum256 "Basic dTpw" } rfl rfl rfl
  ⟨rfl, rfl, rfl, by rw [h.2.2.2.2.2]; rfl, by rw [h.2.2.2.2.2], by rw [h.2.2.2.2.2]; rfl⟩

/-! ### `Connect`: the wait group -/

namespace Connect

theorem Inv_init : Inv State.init := by
  constructor <;>
    simp [State.init, watcherLive, serveLive, watcherWoke, watcherCalled, serveCalled]

theorem Inv_step (e : Event) (c c2 : State) (hi : Inv c) (hs : step e c = some c2) :
    Inv c2 := by
  obtain ⟨cancelled, main, watcher, serve, wg, hsd, wsd, joined⟩ := c
  obtain ⟨h1, h2, h3, h4, h5, h6, h7⟩ := hi
  simp only at h1 h2 h3 h4 h5 h6 h7
  subst h1
  cases e
  case cancel =>
    simp only [step, Option.some.injEq] at hs
    subst hs
    exact ⟨rfl, h2, h3, fun _ => rfl, h5, h6, h7⟩
  all_goals
    simp only [step] at hs
    split at hs
    · simp only [Option.some.injEq] at hs
      subst hs
      rename_i hg
      first
        | (obtain ⟨hg, hg2⟩ := hg
           subst hg
           constructor <;>
             simp [watcherLive, serveLive, watcherWoke, watcherCalled, serveCalled]
               at h2 h3 h4 h5 h6 h7 hg2 ⊢ <;>
             first | done | omega | tauto | simp_all)
        | (subst hg
           constructor <;>
             simp [watcherLive, serveLive, watcherWoke, watcherCalled, serveCalled]
               at h2 h3 h4 h5 h6 h7 ⊢ <;>
             first | done | omega | tauto | simp_all)
    · simp at hs

theorem Inv_run (evs : List Event) (c c2 : State) (hi : Inv c) (hr : run evs c = some c2) :
    Inv c2 := by
  induction evs generalizing c with
  | nil =>
    simp only [run, Option.some.injEq] at hr
    subst hr
    exact hi
  | cons e es ih =>
    simp only [run] at hr
    cases hs : step e c with
    | none =>
      rw [hs] at hr
      simp at hr
    | some c1 =>
      rw [hs] at hr
      exact ih c1 (Inv_step e c c1 hi hs) hr

theorem Inv_zero (c : State) (hi : Inv c) (hm : c.main = .returned) (hz : c.wg = 0) :
    c.watcher = some .returned ∧ c.serve = some .returned ∧ c.cancelled = true ∧
      c.httpShutdown = true ∧ c.wsShutdown = true := by
  obtain ⟨cancelled, main, watcher, serve, wg, hsd, wsd, joined⟩ := c
  obtain ⟨h1, h2, h3, h4, h5, h6, h7⟩ := hi
  simp only at h1 h2 h3 h4 h5 h6 h7 hm hz
  subst hm hz
  have hw : watcher = some .returned := by
    cases watcher with
    | none => simp at h2
    | some pc =>
      cases pc
      case returned => rfl
      all_goals
        simp only [watcherLive] at h1
        omega
  have hv : serve = some .returned := by
    cases serve with
    | none => simp at h3
    | some pc =>
      cases pc
      case returned => rfl
      all_goals
        simp only [serveLive] at h1
        omega
  subst hw hv
  exact ⟨rfl, rfl, h4 rfl, h5 rfl, h6 rfl⟩

/-- The deferred `Done()` of either goroutine never finds the counter at zero:
the step is always possible when the goroutine has reached it. -/
theorem done_possible (evs : List Event) (c : State) (hr : run evs State.init = some c) :
    (c.watcher = some .shutdownDone → step .watcherDone c ≠ none) ∧
    (c.serve = some .shutdownDone → step .serveDone c ≠ none) := by
  have hi := Inv_run evs State.init c Inv_init hr
  have hc := hi.count
  constructor
  · intro hw
    rw [hw] at hc
    have hpos : 0 < c.wg := by
      simp only [watcherLive] at hc
      omega
    simp [step, hw, hpos]
  · intro hv
    rw [hv] at hc
    have hpos : 0 < c.wg := by
      simp only [serveLive] at hc
      omega
    simp [step, hv, hpos]

/-- C10: in every interleaving of the steps of `Connect`, of its two goroutines
and of the caller, once `Connect` has returned the wait group, its counter is
zero (and `Wait()` has returned) only in a state in which the watcher and the
serving goroutine have both returned, the context is cancelled, and
`s.srv.Shutdown` and `s.wsServer.Shutdown` have both been invoked. -/
theorem join_after_shutdown (evs : List Event) (c : State)
    (hr : run evs State.init = some c) :
    (c.main = .returned → c.wg = 0 →
      c.watcher = some .returned ∧ c.serve = some .returned ∧ c.cancelled = true ∧
        c.httpShutdown = true ∧ c.wsShutdown = true) ∧
    (c.joined = true →
      c.watcher = some .returned ∧ c.serve = some .returned ∧ c.cancelled = true ∧
        c.httpShutdown = true ∧ c.wsShutdown = true) := by
  have hi := Inv_run evs State.init c Inv_init hr
  refine ⟨Inv_zero c hi, ?_⟩
  intro hj
  obtain ⟨hm, hz⟩ := hi.join hj
  exact Inv_zero c hi hm hz

theorem join_after_shutdown_witness :
    run [.goWatcher, .goServe, .connectReturn, .serveReturn, .cancel, .watcherWake,
         .wsShutdownCall, .httpShutdownCall, .wsShutdownReturn, .serveDone, .httpShutdownReturn,
         .watcherDone, .join] State.init
      = some { cancelled := true, main := .returned, watcher := some .returned,
               serve := some .returned, wg := 0, httpShutdown := true, wsShutdown := true,
               joined := true } ∧
    (some WatcherPC.returned = some .returned ∧ some ServePC.returned = some .returned ∧
      true = true ∧ true = true ∧ true = true) :=
  ⟨rfl, (join_after_shutdown [.goWatcher, .goServe, .connectReturn, .serveReturn, .cancel, .watcherWake,
         .wsShutdownCall, .httpShutdownCall, .wsShutdownReturn, .serveDone, .httpShutdownReturn,
         .watcherDone, .join]
      { cancelled := true, main := .returned, watcher := some .returned,
        serve := some .returned, wg := 0, httpShutdown := true, wsShutdown := true,
        joined := true } rfl).2 rfl⟩

end Connect

end rpcserver
